import Mathlib

/-!
# Automation controller of the liquid-cooling rig

A shallow embedding of `examples/automation_logic_demo/automation_logic_demo.cpp`
(namespace `demo`) and of the `/safetytemp` command and the WiFi scan loop of
`src/ui/preferences.cpp` (namespace `preferences`), and theorems about them.

Modelling conventions

* `float` values are modelled by exact rationals (`ℚ`).  Every comparison of the
  source (`>`, `<`, `<=`) is the comparison of `ℚ`; the literals of the source
  that the controller itself uses (`5.0f`, `10.0f`, `2.5f`, `-100.0f`, `125.0f`,
  `-2.0f`, `3.0f`, `1.5f`, `0.5f`, `-1.0f`) are exact in binary floating point.
  Rounding of `+`, `-`, `*`, infinities and NaN are not modelled.
* `std::uint64_t` timestamps are natural numbers; the only arithmetic the
  controller performs on them is unsigned subtraction, modelled by `sub64`,
  which wraps modulo `2 ^ 64`.
* `int` is the 32-bit two's complement integer, a value of `Int` between
  `INT_MIN` and `INT_MAX`.  `static_cast<int>` of a `float` is truncation toward
  zero (`castInt`) and `int` addition is `addInt`, which wraps modulo `2 ^ 32`.
  Conversion of a value outside the range of `int` and overflow of `int`
  addition are undefined in C++; the model gives them the values they have on
  x86-64 (`INT_MIN` for the conversion, the wrapped sum for the addition).
* A member function that mutates the controller returns the pair of its
  `Outputs` and the controller after the call.
* `withStart`, `withFanTrigger` and `dispatch` name the three steps of the
  `Auto` branch of `update`; `update` itself is written out in full and
  `update_auto` relates the two.
-/

namespace demo

/-- Modulus of `std::uint64_t` arithmetic, `2 ^ 64`. -/
def U64 : Nat := 18446744073709551616

/-- Unsigned 64-bit subtraction `a - b`: the difference modulo `2 ^ 64`. -/
def sub64 (a b : Nat) : Nat := (a + (U64 - b % U64)) % U64

/-- Least value of the 32-bit `int`, `-2 ^ 31`. -/
def INT_MIN : Int := -2147483648

/-- Greatest value of the 32-bit `int`, `2 ^ 31 - 1`. -/
def INT_MAX : Int := 2147483647

/-- Conversion `static_cast<int>(q)` of a `float`: truncation toward zero when
the truncated value is an `int`; otherwise `INT_MIN`, the value the conversion
yields on x86-64 (the C++ standard leaves that case undefined). -/
def castInt (q : ℚ) : Int :=
  if INT_MIN ≤ Int.tdiv q.num (q.den : Int) ∧ Int.tdiv q.num (q.den : Int) ≤ INT_MAX
  then Int.tdiv q.num (q.den : Int)
  else INT_MIN

/-- Addition `a + b` of two `int`s: the sum wrapped modulo `2 ^ 32` into the
range of `int` (the sum itself whenever it is in range). -/
def addInt (a b : Int) : Int := (a + b + 2147483648) % 4294967296 - 2147483648

/-- Function `clampInt(v, lo, hi)`, that is `std::max(lo, std::min(hi, v))`. -/
def clampInt (v lo hi : Int) : Int := max lo (min hi v)

/-- Settings of the controller, `struct Config`, with the defaults of the source. -/
structure Config where
  targetTempC : ℚ := 5
  safetyTempC : ℚ := 10
  idlePumpRunMs : Nat := 40000
  idlePumpRestMs : Nat := 20000
  idlePumpPWM : Int := 204
  idleMaxMs : Nat := 600000
  pumpCycleMaxMs : Nat := 300000
  fanCycleMaxMs : Nat := 300000
  cooldownMs : Nat := 120000
  fanTriggerOffsetC : ℚ := 2.5
  fanMinDelayMs : Nat := 30000
  aiOptimizationFactor : ℚ := 1
  learnedEfficiencyBoost : ℚ := 0
deriving DecidableEq

/-- Operating mode, `enum class Mode`. -/
inductive Mode where
  | Off
  | Manual
  | Auto
deriving DecidableEq, Repr

/-- State of the cycle machine, `enum class AutoState`. -/
inductive AutoState where
  | Idle
  | PumpCycle
  | FanCycle
  | Cooldown
deriving DecidableEq, Repr

/-- Per-tick inputs, `struct Inputs`. -/
structure Inputs where
  mode : Mode := Mode.Auto
  liquidTempC : ℚ := 25
  externalTempC : ℚ := 20
deriving DecidableEq

/-- Per-tick outputs, `struct Outputs`; the defaults are those of `Outputs out{}`. -/
structure Outputs where
  pumpPWM : Int := 0
  fanOn : Bool := false
  state : String := ""
  note : String := ""
deriving DecidableEq

/-- Data members of `class AutomationController`; the defaults are the member
initialisers, so `{ cfg_ := cfg }` is the controller built by the constructor. -/
structure AutomationController where
  cfg_ : Config
  current_ : AutoState := AutoState.Idle
  stateStartMs_ : Nat := 0
  idleCycleStartMs_ : Nat := 0
  idlePumpRunning_ : Bool := false
  fanActive_ : Bool := false
deriving DecidableEq

namespace AutomationController

/-- Member `isValidTemp`: the reading is strictly inside `(-100, 125)`. -/
def isValidTemp (t : ℚ) : Bool := decide (t > -100) && decide (t < 125)

/-- Member `computeCoolingTargetC`; both arguments are unused, as in the source. -/
def computeCoolingTargetC (c : AutomationController) (_liquidTempC _externalTempC : ℚ) : ℚ :=
  let baseOffset : ℚ := -1
  let totalBoost : ℚ := c.cfg_.aiOptimizationFactor + c.cfg_.learnedEfficiencyBoost
  let target : ℚ := c.cfg_.targetTempC + (baseOffset * totalBoost)
  max target (-2)

/-- Member `computePumpPWM`. -/
def computePumpPWM (c : AutomationController) (liquidTempC coolingTargetC externalTempC : ℚ) :
    Int :=
  let basePWM : Int := 77
  let tempDiff : ℚ := liquidTempC - coolingTargetC
  let tempAdj : Int :=
    if tempDiff > 3 then 50
    else if tempDiff > 1.5 then 25
    else if tempDiff < 0.5 then -25
    else 0
  let extAdj : Int :=
    if externalTempC < c.cfg_.targetTempC - 5 then -20
    else if externalTempC > c.cfg_.targetTempC then 30
    else 0
  let totalBoost : ℚ := c.cfg_.aiOptimizationFactor + c.cfg_.learnedEfficiencyBoost
  let aiBase : Int := castInt ((basePWM : ℚ) * totalBoost)
  let pwm : Int := addInt (addInt aiBase tempAdj) extAdj
  clampInt pwm 50 200

/-- Member `shouldStartFanCycle`. -/
def shouldStartFanCycle (c : AutomationController) (nowMs : Nat) (liquidTempC : ℚ) : Bool :=
  let threshold : ℚ := c.cfg_.targetTempC + c.cfg_.fanTriggerOffsetC
  let highTemp : Bool := decide (liquidTempC > threshold)
  let minDelay : Bool := decide (sub64 nowMs c.stateStartMs_ > c.cfg_.fanMinDelayMs)
  highTemp && minDelay && !c.fanActive_

/-- Member `handlePumpCycle`. -/
def handlePumpCycle (c : AutomationController) (nowMs : Nat) (inp : Inputs) :
    Outputs × AutomationController :=
  let coolingTargetC : ℚ := c.computeCoolingTargetC inp.liquidTempC inp.externalTempC
  let targetReached : Bool := decide (inp.liquidTempC ≤ coolingTargetC)
  let timeout : Bool := decide (sub64 nowMs c.stateStartMs_ ≥ c.cfg_.pumpCycleMaxMs)
  if targetReached || timeout then
    ({ state := "COOLDOWN",
       note := if targetReached then "Cooling target reached" else "Pump cycle timeout" },
     { c with
       current_ := AutoState.Cooldown
       stateStartMs_ := nowMs
       idleCycleStartMs_ := 0
       idlePumpRunning_ := false })
  else
    ({ state := "PUMP_CYCLE",
       fanOn := true,
       pumpPWM := c.computePumpPWM inp.liquidTempC coolingTargetC inp.externalTempC,
       note := "Active cooling" },
     c)

/-- Member `handleIdle`. -/
def handleIdle (c : AutomationController) (nowMs : Nat) (inp : Inputs) :
    Outputs × AutomationController :=
  let idleTime : Nat := sub64 nowMs c.stateStartMs_
  let aboveTarget : Bool := decide (inp.liquidTempC > c.cfg_.targetTempC)
  if aboveTarget || decide (idleTime ≥ c.cfg_.idleMaxMs) then
    handlePumpCycle
      { c with
        current_ := AutoState.PumpCycle
        stateStartMs_ := nowMs
        idleCycleStartMs_ := 0
        idlePumpRunning_ := false }
      nowMs inp
  else
    let c1 : AutomationController :=
      if c.idleCycleStartMs_ = 0 then
        { c with idleCycleStartMs_ := nowMs, idlePumpRunning_ := true }
      else c
    let cycleElapsed : Nat := sub64 nowMs c1.idleCycleStartMs_
    let c2 : AutomationController :=
      if c1.idlePumpRunning_ then
        (if cycleElapsed ≥ c1.cfg_.idlePumpRunMs then
          { c1 with idlePumpRunning_ := false, idleCycleStartMs_ := nowMs }
        else c1)
      else
        (if cycleElapsed ≥ c1.cfg_.idlePumpRestMs then
          { c1 with idlePumpRunning_ := true, idleCycleStartMs_ := nowMs }
        else c1)
    ({ state := "IDLE",
       fanOn := false,
       pumpPWM := if c2.idlePumpRunning_ then c2.cfg_.idlePumpPWM else 0,
       note := if c2.idlePumpRunning_ then "Idle circulation burst" else "Idle rest" },
     c2)

/-- Member `handleFanCycle`. -/
def handleFanCycle (c : AutomationController) (nowMs : Nat) (inp : Inputs) :
    Outputs × AutomationController :=
  let coolingTargetC : ℚ := c.computeCoolingTargetC inp.liquidTempC inp.externalTempC
  let targetReached : Bool := decide (inp.liquidTempC ≤ coolingTargetC)
  let timeout : Bool := decide (sub64 nowMs c.stateStartMs_ ≥ c.cfg_.fanCycleMaxMs)
  let out : Outputs :=
    { state := "FAN_CYCLE", fanOn := true, pumpPWM := 0, note := "High-temp response (fan only)" }
  if targetReached || timeout then
    ({ out with note := if targetReached then "Cooling target reached" else "Fan cycle timeout" },
     { c with current_ := AutoState.Cooldown, stateStartMs_ := nowMs, fanActive_ := false })
  else
    (out, c)

/-- Member `handleCooldown`; the inputs are unused, as in the source. -/
def handleCooldown (c : AutomationController) (nowMs : Nat) (_inp : Inputs) :
    Outputs × AutomationController :=
  let out : Outputs :=
    { state := "COOLDOWN", fanOn := false, pumpPWM := 0, note := "Anti-thrashing delay" }
  if sub64 nowMs c.stateStartMs_ ≥ c.cfg_.cooldownMs then
    (out,
     { c with
       current_ := AutoState.Idle
       stateStartMs_ := nowMs
       idleCycleStartMs_ := 0
       idlePumpRunning_ := false })
  else
    (out, c)

/-- Member `update`: one tick of the controller.  The `switch` over `current_`
is exhaustive, so the trailing `UNKNOWN` fallback of the source has no
counterpart here. -/
def update (c : AutomationController) (nowMs : Nat) (inp : Inputs) :
    Outputs × AutomationController :=
  if !isValidTemp inp.liquidTempC then
    ({ state := "SAFE", note := "Invalid liquid temp reading -> actuators OFF" }, c)
  else if inp.liquidTempC > c.cfg_.safetyTempC then
    ({ state := "SAFETY_OVERRIDE",
       fanOn := true,
       pumpPWM := 0,
       note := "Liquid temp above safety limit -> fan ON, pump OFF" },
     c)
  else if inp.mode ≠ Mode.Auto then
    ({ state := if inp.mode = Mode.Off then "OFF" else "MANUAL",
       note := "Automation disabled" },
     { c with
       current_ := AutoState.Idle
       stateStartMs_ := nowMs
       idleCycleStartMs_ := 0
       idlePumpRunning_ := false })
  else
    let c1 : AutomationController :=
      if c.stateStartMs_ = 0 then { c with stateStartMs_ := nowMs } else c
    let c2 : AutomationController :=
      if c1.shouldStartFanCycle nowMs inp.liquidTempC && decide (c1.current_ ≠ AutoState.FanCycle)
      then { c1 with current_ := AutoState.FanCycle, stateStartMs_ := nowMs, fanActive_ := true }
      else c1
    match c2.current_ with
    | AutoState.Idle => c2.handleIdle nowMs inp
    | AutoState.PumpCycle => c2.handlePumpCycle nowMs inp
    | AutoState.FanCycle => c2.handleFanCycle nowMs inp
    | AutoState.Cooldown => c2.handleCooldown nowMs inp

/-- The controller after the statement `if (stateStartMs_ == 0) stateStartMs_ = nowMs;`
of `update`. -/
def withStart (c : AutomationController) (nowMs : Nat) : AutomationController :=
  if c.stateStartMs_ = 0 then { c with stateStartMs_ := nowMs } else c

/-- The controller after the fan-trigger block of `update`. -/
def withFanTrigger (c : AutomationController) (nowMs : Nat) (liquidTempC : ℚ) :
    AutomationController :=
  if c.shouldStartFanCycle nowMs liquidTempC && decide (c.current_ ≠ AutoState.FanCycle)
  then { c with current_ := AutoState.FanCycle, stateStartMs_ := nowMs, fanActive_ := true }
  else c

/-- The `switch (current_)` of `update`. -/
def dispatch (c : AutomationController) (nowMs : Nat) (inp : Inputs) :
    Outputs × AutomationController :=
  match c.current_ with
  | AutoState.Idle => c.handleIdle nowMs inp
  | AutoState.PumpCycle => c.handlePumpCycle nowMs inp
  | AutoState.FanCycle => c.handleFanCycle nowMs inp
  | AutoState.Cooldown => c.handleCooldown nowMs inp

end AutomationController

/-- Driver loop of `main`: the controller after the first `k` ticks of the
schedule `sched`, which gives each step its timestamp and inputs. -/
def stateAfter (c : AutomationController) (sched : Nat → Nat × Inputs) :
    Nat → AutomationController
  | 0 => c
  | k + 1 => ((stateAfter c sched k).update (sched k).1 (sched k).2).2

/-- Driver loop of `main`: the outputs of tick number `k` (counted from 0). -/
def outputAt (c : AutomationController) (sched : Nat → Nat × Inputs) (k : Nat) : Outputs :=
  ((stateAfter c sched k).update (sched k).1 (sched k).2).1

/-- Configuration set up by `main`. -/
def mainCfg : Config :=
  { targetTempC := 5, safetyTempC := 10,
    aiOptimizationFactor := 1.05, learnedEfficiencyBoost := 0.10 }

/-! ## Concrete controllers and inputs used by the examples -/

/-- A freshly constructed controller with the default configuration. -/
def freshDefault : AutomationController := { cfg_ := {} }

/-- A tick in mode `Off` with a plausible reading of 12 °C, above the default
safety limit of 10 °C. -/
def hotOffInputs : Inputs := { mode := Mode.Off, liquidTempC := 12 }

/-- A tick in mode `Auto` with the sensor-fault reading 130 °C, which is also
above the default safety limit. -/
def faultInputs : Inputs := { mode := Mode.Auto, liquidTempC := 130 }

/-- A controller with the default configuration that entered `Cooldown` at
timestamp 1000, with the fan latch clear. -/
def cooldownSince1000 : AutomationController :=
  { cfg_ := {}, current_ := AutoState.Cooldown, stateStartMs_ := 1000 }

/-- An `Auto` tick with a liquid reading of 8 °C (external 20 °C). -/
def auto8Inputs : Inputs := { mode := Mode.Auto, liquidTempC := 8 }

/-- An `Auto` tick with a liquid reading of 4 °C (external 20 °C). -/
def auto4Inputs : Inputs := { mode := Mode.Auto, liquidTempC := 4 }

/-- A controller with the default configuration that is in `Idle` since
timestamp `s`, with the fan latch clear and an arbitrary idle duty sub-state. -/
def idleSince (s cycleStart : Nat) (running : Bool) : AutomationController :=
  { cfg_ := {}, current_ := AutoState.Idle, stateStartMs_ := s,
    idleCycleStartMs_ := cycleStart, idlePumpRunning_ := running }

/-- The default controller after a first `Auto` tick at timestamp 0 with a
reading of 4 °C: `Idle` entered at 0, in the running phase of its duty cycle. -/
def idleAtZero : AutomationController := (freshDefault.update 0 auto4Inputs).2

/-- A regular schedule in the manner of the loop of `main`: tick number `k` is
at timestamp `k * d`, in mode `Auto`, with the readings `liquid k` and `ext k`. -/
def cadence (d : Nat) (liquid ext : Nat → ℚ) (k : Nat) : Nat × Inputs :=
  (k * d, { mode := Mode.Auto, liquidTempC := liquid k, externalTempC := ext k })

/-- The controller state that an idle controller, ticked every `d` ms from
timestamp 0 on, has right after its tick at timestamp `T`: the state timer and
the duty cycle start at the first non-zero tick `d`, the pump runs until
`40000 + d`, rests until `60000 + d` and runs again from then on. -/
def idlePhase (cfg : Config) (d T : Nat) : AutomationController :=
  { cfg_ := cfg
    current_ := AutoState.Idle
    stateStartMs_ := min T d
    idleCycleStartMs_ :=
      if T < 40000 + d then min T d else if T < 60000 + d then 40000 + d else 60000 + d
    idlePumpRunning_ := decide (T < 40000 + d ∨ 60000 + d ≤ T)
    fanActive_ := false }

/-- Outputs of an idle tick: label `IDLE`, fan off, and the idle duty when the
pump is in its running phase. -/
def idleOutputs (cfg : Config) (running : Bool) : Outputs :=
  { state := "IDLE"
    fanOn := false
    pumpPWM := if running then cfg.idlePumpPWM else 0
    note := if running then "Idle circulation burst" else "Idle rest" }

/-- A tick in mode `Manual` with a liquid reading of 4 °C. -/
def manual4Inputs : Inputs := { mode := Mode.Manual, liquidTempC := 4 }

/-- A constant reading of 4 °C at every tick. -/
def steady4 : Nat → ℚ := fun _ => 4

/-- A constant reading of 18 °C at every tick (the external temperature of `main`). -/
def steady18 : Nat → ℚ := fun _ => 18

/-- The controller constructed by `main`. -/
def mainController : AutomationController := { cfg_ := mainCfg }

/-- Inputs of the first tick of `main`: `Auto`, liquid 9.5 °C, external 18 °C. -/
def mainFirstInputs : Inputs := { mode := Mode.Auto, liquidTempC := 9.5, externalTempC := 18 }

/-! ## Formulas in the words of the specification -/

/-- Truncation of a rational toward zero. -/
def truncZero (q : ℚ) : Int := if 0 ≤ q then ⌊q⌋ else ⌈q⌉

/-- The default controller after a first `Auto` tick at timestamp 1000 with a
reading of 4 °C: `Idle` since 1000, in the running phase of the duty cycle
started at 1000. -/
def idleRunning1000 : AutomationController := (freshDefault.update 1000 auto4Inputs).2

/-- The controller `idleRunning1000` after an `Auto` tick at 41000 with 8 °C, on
which the fan trigger fires: `FanCycle` since 41000 with the latch set. -/
def fanSince41000 : AutomationController := (idleRunning1000.update 41000 auto8Inputs).2

/-- A controller with the default configuration that entered `Cooldown` at
timestamp `2 ^ 64 - 1000`, one second before the counter wraps. -/
def cooldownNearWrap : AutomationController :=
  { cfg_ := {}, current_ := AutoState.Cooldown, stateStartMs_ := 18446744073709550616 }

/-- The fan trigger in the words of the specification: with `s` the stored
`stateStartMs`, or `now` if the stored value is the sentinel 0, the reading is
above `targetTempC + fanTriggerOffsetC`, `now - s` exceeds `fanMinDelayMs` and
the latch `fanActive` is clear. -/
def specTrigger (c : AutomationController) (nowMs : Nat) (liquidTempC : ℚ) : Bool :=
  decide (liquidTempC > c.cfg_.targetTempC + c.cfg_.fanTriggerOffsetC) &&
    decide (sub64 nowMs (if c.stateStartMs_ = 0 then nowMs else c.stateStartMs_) >
      c.cfg_.fanMinDelayMs) &&
    !c.fanActive_

/-- The base duty `trunc(77 * totalBoost)` of a configuration leaves room in a
32-bit `int` for the adjustments, which sum to between `-45` and `+80`:
`-2 ^ 31 + 45 ≤ trunc(77 * totalBoost) ≤ 2 ^ 31 - 1 - 80`. -/
def baseDutyFits (cfg : Config) : Prop :=
  -2147483603 ≤ truncZero (77 * (cfg.aiOptimizationFactor + cfg.learnedEfficiencyBoost)) ∧
    truncZero (77 * (cfg.aiOptimizationFactor + cfg.learnedEfficiencyBoost)) ≤ 2147483567

instance baseDutyFitsDecidable (cfg : Config) : Decidable (baseDutyFits cfg) := by
  unfold baseDutyFits
  infer_instance

/-- The label that names a state of the cycle machine. -/
def stateLabel : AutoState → String
  | AutoState.Idle => "IDLE"
  | AutoState.PumpCycle => "PUMP_CYCLE"
  | AutoState.FanCycle => "FAN_CYCLE"
  | AutoState.Cooldown => "COOLDOWN"

/-- An `Auto` tick with a liquid reading of 4.5 °C (external 20 °C). -/
def auto45Inputs : Inputs := { mode := Mode.Auto, liquidTempC := 4.5 }

/-- The default controller after a first `Auto` tick at timestamp 1000 with a
reading of 8 °C: `PumpCycle` since 1000. -/
def pumpSince1000 : AutomationController := (freshDefault.update 1000 auto8Inputs).2

/-- The controller `fanSince41000` after a `Manual` tick at 42000: the mode gate
has reset it to `Idle` and left the fan latch set. -/
def stuckLatch : AutomationController := (fanSince41000.update 42000 manual4Inputs).2

/-- A schedule whose first two ticks are 4 °C at 1000 and 8 °C at 41000 (both in
`Auto`), the run that leads from a fresh controller to `fanSince41000`. -/
def twoTicks (k : Nat) : Nat × Inputs :=
  if k = 0 then (1000, auto4Inputs) else (41000, auto8Inputs)

/-- A schedule that ticks at 100000 in `Auto` with 8 °C at every step. -/
def hotAt100000 : Nat → Nat × Inputs := fun _ => (100000, auto8Inputs)

/-- The default configuration with `pumpCycleMaxMs` set to 0. -/
def zeroPumpMaxCfg : Config := { pumpCycleMaxMs := 0 }

/-- A controller constructed with `zeroPumpMaxCfg` after a first `Auto` tick at
timestamp 1000 with a reading of 4 °C: `Idle` since 1000. -/
def idleZeroPumpMax : AutomationController :=
  (AutomationController.update { cfg_ := zeroPumpMaxCfg } 1000 auto4Inputs).2

end demo

/-! ## Serial console: `handleSerialConfiguration` of `src/ui/preferences.cpp` -/

namespace preferences

/-- The part of the `/safetytemp` command of `handleSerialConfiguration` that
follows `float newSafetyTemp = tempInput.toFloat();`.  The result is the value
of `state.safetyTemp` afterwards, paired with whether `saveSettings()` ran. -/
def applySafetyTemp (safetyTemp newSafetyTemp : ℚ) : ℚ × Bool :=
  if newSafetyTemp ≥ 8 ∧ newSafetyTemp ≤ 40 then (newSafetyTemp, true) else (safetyTemp, false)

/-- The `/safetytemp` command once the reply `tempInput` has been read and
trimmed; `toFloat` stands for `String::toFloat` of the Arduino core. -/
def safetyTempCommand (toFloat : String → ℚ) (safetyTemp : ℚ) (tempInput : String) : ℚ × Bool :=
  if tempInput = "cancel" then (safetyTemp, false)
  else applySafetyTemp safetyTemp (toFloat tempInput)

/-- The range that the help text, the prompt and the error message of the
`/safetytemp` command announce: 8.0 to 20.0. -/
def announcedRange (v : ℚ) : Prop := 8 ≤ v ∧ v ≤ 20

/-- Number of elements of `static String availableNetworks[15]`. -/
def availableNetworksSize : Nat := 15

/-- The indices at which the loop
`for (int i = 0; i < min(networkCount, 20); i++) availableNetworks[i] = WiFi.SSID(i);`
of the `/settings` wizard (step 10) and of `/scan` writes, in order;
`networkCount` is the `int` returned by `WiFi.scanNetworks()`. -/
def scanWriteIndices (networkCount : Int) : List Nat :=
  List.range (min networkCount 20).toNat

/-- The same loop run on the array `availableNetworks`, with `ssid i` for
`WiFi.SSID(i)`: the array after the loop, or `none` when a write falls outside
the array. -/
def storeScan (ssid : Nat → String) (networkCount : Int) (availableNetworks : List String) :
    Option (List String) :=
  (scanWriteIndices networkCount).foldlM
    (fun arr i => if i < arr.length then some (arr.set i (ssid i)) else none)
    availableNetworks

end preferences

namespace demo

open AutomationController

/-! ## Arithmetic of timestamps -/

theorem sub64_self (a : Nat) : sub64 a a = 0 := by
  unfold sub64 U64
  omega

/-! ## Safety and validity guards -/

/-- C1 (safety priority): whatever the configuration, the internal state, the
timestamp, the mode and the external temperature, a plausible reading
(`-100 < liquidTempC < 125`) above `safetyTempC` makes `update` return the
label `SAFETY_OVERRIDE` with the fan on and the pump off. -/
theorem update_safety_priority (c : AutomationController) (nowMs : Nat) (inp : Inputs)
    (hlo : -100 < inp.liquidTempC) (hhi : inp.liquidTempC < 125)
    (hot : inp.liquidTempC > c.cfg_.safetyTempC) :
    (c.update nowMs inp).1.state = "SAFETY_OVERRIDE" ∧
      (c.update nowMs inp).1.fanOn = true ∧ (c.update nowMs inp).1.pumpPWM = 0 := by
  simp [update, isValidTemp, hlo, hhi, hot]

/-- Witness of C1: mode `Off`, 12 °C against the default limit of 10 °C. -/
theorem update_safety_priority_witness :
    (-100 < hotOffInputs.liquidTempC ∧ hotOffInputs.liquidTempC < 125 ∧
      hotOffInputs.liquidTempC > freshDefault.cfg_.safetyTempC) ∧
    ((freshDefault.update 5000 hotOffInputs).1.state = "SAFETY_OVERRIDE" ∧
      (freshDefault.update 5000 hotOffInputs).1.fanOn = true ∧
      (freshDefault.update 5000 hotOffInputs).1.pumpPWM = 0) :=
  ⟨by norm_num [hotOffInputs, freshDefault],
   update_safety_priority freshDefault 5000 hotOffInputs
     (by norm_num [hotOffInputs]) (by norm_num [hotOffInputs])
     (by norm_num [hotOffInputs, freshDefault])⟩

/-- C2 (validity priority): whatever the configuration, the internal state, the
timestamp, the mode and the external temperature, a reading that is not
strictly inside `(-100, 125)` makes `update` return the label `SAFE` with the
fan off and the pump off; nothing is assumed about `safetyTempC`, so this also
covers readings above the safety limit. -/
theorem update_validity_priority (c : AutomationController) (nowMs : Nat) (inp : Inputs)
    (hbad : inp.liquidTempC ≤ -100 ∨ 125 ≤ inp.liquidTempC) :
    (c.update nowMs inp).1.state = "SAFE" ∧
      (c.update nowMs inp).1.fanOn = false ∧ (c.update nowMs inp).1.pumpPWM = 0 := by
  have hinv : isValidTemp inp.liquidTempC = false := by
    rcases hbad with h | h
    · simp [isValidTemp, h]
    · simp [isValidTemp, h]
  simp [update, hinv]

/-- Witness of C2: 130 °C is out of range and above the safety limit of 10 °C,
and the tick still reports `SAFE`. -/
theorem update_validity_priority_witness :
    ((faultInputs.liquidTempC ≤ -100 ∨ 125 ≤ faultInputs.liquidTempC) ∧
      faultInputs.liquidTempC > freshDefault.cfg_.safetyTempC) ∧
    ((freshDefault.update 5000 faultInputs).1.state = "SAFE" ∧
      (freshDefault.update 5000 faultInputs).1.fanOn = false ∧
      (freshDefault.update 5000 faultInputs).1.pumpPWM = 0) :=
  ⟨by norm_num [faultInputs, freshDefault],
   update_validity_priority freshDefault 5000 faultInputs
     (Or.inr (by norm_num [faultInputs]))⟩

/-! ## Shape of one tick -/

theorem update_auto (c : AutomationController) (nowMs : Nat) (inp : Inputs)
    (hv : isValidTemp inp.liquidTempC = true) (hs : ¬ inp.liquidTempC > c.cfg_.safetyTempC)
    (hm : inp.mode = Mode.Auto) :
    c.update nowMs inp =
      ((c.withStart nowMs).withFanTrigger nowMs inp.liquidTempC).dispatch nowMs inp := by
  unfold update
  rw [if_neg (by simp [hv]), if_neg hs, if_neg (by simp [hm])]
  rfl

theorem update_invalid (c : AutomationController) (nowMs : Nat) (inp : Inputs)
    (hv : isValidTemp inp.liquidTempC = false) :
    c.update nowMs inp =
      ({ state := "SAFE", note := "Invalid liquid temp reading -> actuators OFF" }, c) := by
  unfold update
  rw [if_pos (by simp [hv])]

theorem update_hot (c : AutomationController) (nowMs : Nat) (inp : Inputs)
    (hv : isValidTemp inp.liquidTempC = true) (hs : inp.liquidTempC > c.cfg_.safetyTempC) :
    c.update nowMs inp =
      ({ state := "SAFETY_OVERRIDE", fanOn := true, pumpPWM := 0,
         note := "Liquid temp above safety limit -> fan ON, pump OFF" }, c) := by
  unfold update
  rw [if_neg (by simp [hv]), if_pos hs]

theorem isValidTemp_iff (t : ℚ) : isValidTemp t = true ↔ -100 < t ∧ t < 125 := by
  simp [isValidTemp]

theorem withStart_current (c : AutomationController) (nowMs : Nat) :
    (c.withStart nowMs).current_ = c.current_ := by
  unfold withStart
  split <;> rfl

theorem withStart_cfg (c : AutomationController) (nowMs : Nat) :
    (c.withStart nowMs).cfg_ = c.cfg_ := by
  unfold withStart
  split <;> rfl

theorem withStart_fanActive (c : AutomationController) (nowMs : Nat) :
    (c.withStart nowMs).fanActive_ = c.fanActive_ := by
  unfold withStart
  split <;> rfl

theorem withStart_elapsed (c : AutomationController) (nowMs : Nat) :
    sub64 nowMs (c.withStart nowMs).stateStartMs_ =
      if c.stateStartMs_ = 0 then 0 else sub64 nowMs c.stateStartMs_ := by
  unfold withStart
  split
  · exact sub64_self nowMs
  · rfl

theorem withStart_elapsed_le (c : AutomationController) (nowMs : Nat) :
    sub64 nowMs (c.withStart nowMs).stateStartMs_ ≤ sub64 nowMs c.stateStartMs_ := by
  rw [withStart_elapsed]
  split
  · exact Nat.zero_le _
  · exact Nat.le_refl _

theorem withFanTrigger_of_not (c : AutomationController) (nowMs : Nat) (t : ℚ)
    (h : c.shouldStartFanCycle nowMs t = false) : c.withFanTrigger nowMs t = c := by
  simp [withFanTrigger, h]

theorem withFanTrigger_of_fire (c : AutomationController) (nowMs : Nat) (t : ℚ)
    (h : c.shouldStartFanCycle nowMs t = true) (hc : c.current_ ≠ AutoState.FanCycle) :
    c.withFanTrigger nowMs t =
      { c with current_ := AutoState.FanCycle, stateStartMs_ := nowMs, fanActive_ := true } := by
  simp [withFanTrigger, h, hc]

theorem shouldStartFanCycle_withStart_false (c : AutomationController) (nowMs : Nat) (t : ℚ)
    (h : t ≤ c.cfg_.targetTempC + c.cfg_.fanTriggerOffsetC ∨
        sub64 nowMs c.stateStartMs_ ≤ c.cfg_.fanMinDelayMs ∨ c.fanActive_ = true) :
    (c.withStart nowMs).shouldStartFanCycle nowMs t = false := by
  have hle := withStart_elapsed_le c nowMs
  unfold shouldStartFanCycle
  rw [withStart_cfg, withStart_fanActive]
  rcases h with h | h | h
  · simp [not_lt.mpr h]
  · have : ¬ (sub64 nowMs (c.withStart nowMs).stateStartMs_ > c.cfg_.fanMinDelayMs) := by omega
    simp [this]
  · simp [h]

/-! ## Cooldown -/

/-- C3 (anti-thrashing, as amended): for a controller in `Cooldown` and an
`Auto` tick whose elapsed time `now - stateStartMs` is below `cooldownMs`, the
tick outputs `pumpPWM = 0` for every `liquidTempC`; and unless the fan trigger
fires (`liquidTempC > targetTempC + fanTriggerOffsetC` with elapsed time above
`fanMinDelayMs` and the latch `fanActive` clear) the controller is still in
`Cooldown` after the tick, with `fanOn = false` unless the safety override
applies (a plausible reading above `safetyTempC`). -/
theorem cooldown_window_outputs (c : AutomationController) (nowMs : Nat) (inp : Inputs)
    (hcur : c.current_ = AutoState.Cooldown) (hmode : inp.mode = Mode.Auto)
    (hwin : sub64 nowMs c.stateStartMs_ < c.cfg_.cooldownMs) :
    (c.update nowMs inp).1.pumpPWM = 0 ∧
    ((inp.liquidTempC ≤ c.cfg_.targetTempC + c.cfg_.fanTriggerOffsetC ∨
        sub64 nowMs c.stateStartMs_ ≤ c.cfg_.fanMinDelayMs ∨ c.fanActive_ = true) →
      (c.update nowMs inp).2.current_ = AutoState.Cooldown ∧
      (¬ (-100 < inp.liquidTempC ∧ inp.liquidTempC < 125 ∧
            inp.liquidTempC > c.cfg_.safetyTempC) →
        (c.update nowMs inp).1.fanOn = false)) := by
  by_cases hv : isValidTemp inp.liquidTempC = true
  · by_cases hs : inp.liquidTempC > c.cfg_.safetyTempC
    · rw [update_hot c nowMs inp hv hs]
      refine ⟨rfl, fun _ => ⟨hcur, fun hno => ?_⟩⟩
      exact absurd ⟨((isValidTemp_iff _).mp hv).1, ((isValidTemp_iff _).mp hv).2, hs⟩ hno
    · rw [update_auto c nowMs inp hv hs hmode]
      have hwin2 : ¬ (sub64 nowMs (c.withStart nowMs).stateStartMs_ ≥ c.cfg_.cooldownMs) := by
        have := withStart_elapsed_le c nowMs
        omega
      constructor
      · by_cases ht : (c.withStart nowMs).shouldStartFanCycle nowMs inp.liquidTempC = true
        · rw [withFanTrigger_of_fire _ _ _ ht (by rw [withStart_current, hcur]; decide)]
          simp [dispatch, handleFanCycle]
          split <;> rfl
        · rw [withFanTrigger_of_not _ _ _ (by simpa using ht)]
          simp [dispatch, withStart_current, hcur, handleCooldown]
          split <;> rfl
      · intro hno
        rw [withFanTrigger_of_not _ _ _ (shouldStartFanCycle_withStart_false c nowMs _ hno)]
        simp [dispatch, withStart_current, hcur, handleCooldown, withStart_cfg, hwin2]
  · rw [update_invalid c nowMs inp (by simpa using hv)]
    exact ⟨rfl, fun _ => ⟨hcur, fun _ => rfl⟩⟩

/-- Witness of C3: 40 s into a 120 s cooldown, a reading of 4 °C leaves the
actuators off and the controller in `Cooldown`. -/
theorem cooldown_window_outputs_witness :
    (cooldownSince1000.current_ = AutoState.Cooldown ∧ auto4Inputs.mode = Mode.Auto ∧
      sub64 41000 cooldownSince1000.stateStartMs_ < cooldownSince1000.cfg_.cooldownMs) ∧
    (cooldownSince1000.update 41000 auto4Inputs).1.pumpPWM = 0 ∧
    (cooldownSince1000.update 41000 auto4Inputs).2.current_ = AutoState.Cooldown ∧
    (cooldownSince1000.update 41000 auto4Inputs).1.fanOn = false := by
  have hwin : sub64 41000 cooldownSince1000.stateStartMs_ < cooldownSince1000.cfg_.cooldownMs := by
    simp [cooldownSince1000, sub64, U64]
  have h := cooldown_window_outputs cooldownSince1000 41000 auto4Inputs rfl rfl hwin
  have hlow : auto4Inputs.liquidTempC ≤
      cooldownSince1000.cfg_.targetTempC + cooldownSince1000.cfg_.fanTriggerOffsetC := by
    norm_num [auto4Inputs, cooldownSince1000]
  have hsafe : ¬ (-100 < auto4Inputs.liquidTempC ∧ auto4Inputs.liquidTempC < 125 ∧
      auto4Inputs.liquidTempC > cooldownSince1000.cfg_.safetyTempC) := by
    norm_num [auto4Inputs, cooldownSince1000]
  exact ⟨⟨rfl, rfl, hwin⟩, h.1, (h.2 (Or.inl hlow)).1, (h.2 (Or.inl hlow)).2 hsafe⟩

/-- Counterexample to C3 as stated: default configuration, `Cooldown` entered at
1000, `Auto` tick at 41000 (40 s elapsed, inside the 120 s window) with a
reading of 8 °C.  The fan trigger fires (8 > 5 + 2.5, 40 s > 30 s, latch clear):
the tick reports `FAN_CYCLE` with the fan on and the controller leaves
`Cooldown` for `FanCycle`. -/
theorem cooldown_window_counterexample :
    cooldownSince1000.current_ = AutoState.Cooldown ∧ auto8Inputs.mode = Mode.Auto ∧
    sub64 41000 cooldownSince1000.stateStartMs_ < cooldownSince1000.cfg_.cooldownMs ∧
    (cooldownSince1000.update 41000 auto8Inputs).1.fanOn = true ∧
    (cooldownSince1000.update 41000 auto8Inputs).1.state = "FAN_CYCLE" ∧
    (cooldownSince1000.update 41000 auto8Inputs).2.current_ = AutoState.FanCycle := by
  simp [update, isValidTemp, cooldownSince1000, auto8Inputs, shouldStartFanCycle, sub64, U64,
    handleFanCycle, computeCoolingTargetC]
  norm_num

/-! ## Fan trigger -/

theorem idleAtZero_eq : idleAtZero = idleSince 0 0 true := by
  simp [idleAtZero, freshDefault, auto4Inputs, idleSince, update, isValidTemp,
    shouldStartFanCycle, handleIdle, sub64, U64]
  norm_num

theorem handlePumpCycle_current (c : AutomationController) (nowMs : Nat) (inp : Inputs)
    (hc : c.current_ ≠ AutoState.FanCycle) :
    (c.handlePumpCycle nowMs inp).2.current_ ≠ AutoState.FanCycle ∧
      (c.handlePumpCycle nowMs inp).1.state ≠ "FAN_CYCLE" := by
  unfold handlePumpCycle
  dsimp only
  split
  · simp
  · simp [hc]

theorem handleIdle_current (c : AutomationController) (nowMs : Nat) (inp : Inputs)
    (hc : c.current_ ≠ AutoState.FanCycle) :
    (c.handleIdle nowMs inp).2.current_ ≠ AutoState.FanCycle ∧
      (c.handleIdle nowMs inp).1.state ≠ "FAN_CYCLE" := by
  unfold handleIdle
  dsimp only
  split
  · exact handlePumpCycle_current _ nowMs inp (by simp)
  · refine ⟨?_, by simp⟩
    split_ifs <;> exact hc

theorem handleCooldown_current (c : AutomationController) (nowMs : Nat) (inp : Inputs)
    (hc : c.current_ ≠ AutoState.FanCycle) :
    (c.handleCooldown nowMs inp).2.current_ ≠ AutoState.FanCycle ∧
      (c.handleCooldown nowMs inp).1.state ≠ "FAN_CYCLE" := by
  unfold handleCooldown
  dsimp only
  split
  · simp
  · simp [hc]

theorem dispatch_current (c : AutomationController) (nowMs : Nat) (inp : Inputs)
    (hc : c.current_ ≠ AutoState.FanCycle) :
    (c.dispatch nowMs inp).2.current_ ≠ AutoState.FanCycle ∧
      (c.dispatch nowMs inp).1.state ≠ "FAN_CYCLE" := by
  unfold dispatch
  split
  · exact handleIdle_current c nowMs inp hc
  · exact handlePumpCycle_current c nowMs inp hc
  · next h => exact absurd h hc
  · exact handleCooldown_current c nowMs inp hc

/-- C4 (fan-trigger preemption example, as amended): with the default
configuration (target 5, offset 2.5, minimum delay 30000, safety limit 10), a
controller that is in `Idle` since a non-zero timestamp `s < 10000` with the
latch `fanActive` clear, at any point of its idle duty cycle, and that receives
an `Auto` tick at `now = 40000` with `liquidTempC = 8`, is in `FanCycle` after
that tick, and the tick reports `FAN_CYCLE`. -/
theorem fan_preemption_example (s cycleStart : Nat) (running : Bool) (ext : ℚ)
    (hs0 : 0 < s) (hs : s < 10000) :
    ((idleSince s cycleStart running).update 40000
        { mode := Mode.Auto, liquidTempC := 8, externalTempC := ext }).2.current_ =
      AutoState.FanCycle ∧
    ((idleSince s cycleStart running).update 40000
        { mode := Mode.Auto, liquidTempC := 8, externalTempC := ext }).1.state = "FAN_CYCLE" := by
  have hne : s ≠ 0 := by omega
  have hel : 30000 < sub64 40000 s := by
    unfold sub64 U64
    omega
  have hfire : ((idleSince s cycleStart running).withStart 40000).shouldStartFanCycle 40000 8 =
      true := by
    simp [withStart, idleSince, hne, shouldStartFanCycle, hel]
    norm_num
  rw [update_auto _ _ _ (by simp [isValidTemp]; norm_num) (by simp [idleSince]; norm_num) rfl,
    withFanTrigger_of_fire _ _ _ hfire (by rw [withStart_current]; simp [idleSince])]
  simp [dispatch, handleFanCycle, computeCoolingTargetC, withStart_cfg, idleSince, sub64_self]
  norm_num

/-- Witness of C4: `Idle` entered at timestamp 1, in the running phase of the
idle duty cycle started at 1. -/
theorem fan_preemption_example_witness :
    (0 < 1 ∧ 1 < 10000) ∧
    ((idleSince 1 1 true).update 40000
        { mode := Mode.Auto, liquidTempC := 8, externalTempC := 20 }).2.current_ =
      AutoState.FanCycle ∧
    ((idleSince 1 1 true).update 40000
        { mode := Mode.Auto, liquidTempC := 8, externalTempC := 20 }).1.state = "FAN_CYCLE" :=
  ⟨by decide, fan_preemption_example 1 1 true 20 (by decide) (by decide)⟩

/-- Counterexample to C4 as stated: the default controller whose `Idle` state was
entered by a tick at timestamp 0 has `stateStartMs = 0`, which `update` reads as
"not yet initialised" and replaces by `now`; at `now = 40000` with 8 °C the
minimum delay has therefore not elapsed, the fan trigger does not fire, and the
tick starts a pump cycle instead (`current = PumpCycle`, label `PUMP_CYCLE`). -/
theorem fan_preemption_counterexample :
    idleAtZero.current_ = AutoState.Idle ∧ idleAtZero.stateStartMs_ = 0 ∧
    idleAtZero.fanActive_ = false ∧
    (idleAtZero.update 40000 auto8Inputs).2.current_ = AutoState.PumpCycle ∧
    (idleAtZero.update 40000 auto8Inputs).1.state = "PUMP_CYCLE" := by
  rw [idleAtZero_eq]
  simp [idleSince, auto8Inputs, update, isValidTemp, shouldStartFanCycle, sub64, U64,
    handleIdle, handlePumpCycle, computeCoolingTargetC]
  norm_num

/-- C5 (fan-trigger minimum delay): for a controller that is not in `FanCycle`
and an `Auto` tick at which the time elapsed since the current state was
entered is at most `fanMinDelayMs`, the controller is not in `FanCycle` after
the tick and the tick does not report `FAN_CYCLE`, whatever `liquidTempC` is. -/
theorem fan_trigger_min_delay (c : AutomationController) (nowMs : Nat) (inp : Inputs)
    (hcur : c.current_ ≠ AutoState.FanCycle) (hmode : inp.mode = Mode.Auto)
    (hdelay : sub64 nowMs c.stateStartMs_ ≤ c.cfg_.fanMinDelayMs) :
    (c.update nowMs inp).2.current_ ≠ AutoState.FanCycle ∧
      (c.update nowMs inp).1.state ≠ "FAN_CYCLE" := by
  by_cases hv : isValidTemp inp.liquidTempC = true
  · by_cases hs : inp.liquidTempC > c.cfg_.safetyTempC
    · rw [update_hot c nowMs inp hv hs]
      exact ⟨hcur, by simp⟩
    · rw [update_auto c nowMs inp hv hs hmode,
        withFanTrigger_of_not _ _ _
          (shouldStartFanCycle_withStart_false c nowMs _ (Or.inr (Or.inl hdelay)))]
      exact dispatch_current _ nowMs inp (by rw [withStart_current]; exact hcur)
  · rw [update_invalid c nowMs inp (by simpa using hv)]
    exact ⟨hcur, by simp⟩

/-- Witness of C5, the one of the claim: target 5, offset 2.5, delay 30000,
`Idle` entered at 0, a reading of 8 °C at `now = 10000` does not start a fan
cycle. -/
theorem fan_trigger_min_delay_witness :
    (idleAtZero.current_ ≠ AutoState.FanCycle ∧ auto8Inputs.mode = Mode.Auto ∧
      sub64 10000 idleAtZero.stateStartMs_ ≤ idleAtZero.cfg_.fanMinDelayMs) ∧
    ((idleAtZero.update 10000 auto8Inputs).2.current_ ≠ AutoState.FanCycle ∧
      (idleAtZero.update 10000 auto8Inputs).1.state ≠ "FAN_CYCLE") := by
  have h1 : idleAtZero.current_ ≠ AutoState.FanCycle := by
    rw [idleAtZero_eq]; simp [idleSince]
  have h3 : sub64 10000 idleAtZero.stateStartMs_ ≤ idleAtZero.cfg_.fanMinDelayMs := by
    rw [idleAtZero_eq]; simp [idleSince, sub64, U64]
  exact ⟨⟨h1, rfl, h3⟩, fan_trigger_min_delay idleAtZero 10000 auto8Inputs h1 rfl h3⟩

/-! ## Idle duty cycle -/

theorem mul_le_of_lt_add (d k b : Nat) (hb : d ∣ b) (h : k * d < b + d) : k * d ≤ b := by
  obtain ⟨q, rfl⟩ := hb
  have h1 : k * d < (q + 1) * d := by
    have : (q + 1) * d = d * q + d := by ring
    omega
  have h2 : k < q + 1 := Nat.lt_of_mul_lt_mul_right h1
  have h3 : k * d ≤ q * d := Nat.mul_le_mul_right d (by omega)
  have : q * d = d * q := Nat.mul_comm q d
  omega

theorem handleIdle_init (c : AutomationController) (nowMs : Nat) (inp : Inputs)
    (hcool : inp.liquidTempC ≤ c.cfg_.targetTempC)
    (hmax : sub64 nowMs c.stateStartMs_ < c.cfg_.idleMaxMs)
    (h0 : c.idleCycleStartMs_ = 0) (hrun : 0 < c.cfg_.idlePumpRunMs) :
    c.handleIdle nowMs inp =
      (idleOutputs c.cfg_ true,
       { c with idleCycleStartMs_ := nowMs, idlePumpRunning_ := true }) := by
  have h1 : ¬ (inp.liquidTempC > c.cfg_.targetTempC) := not_lt.mpr hcool
  have h2 : ¬ (sub64 nowMs c.stateStartMs_ ≥ c.cfg_.idleMaxMs) := by omega
  have h3 : ¬ (c.cfg_.idlePumpRunMs = 0) := by omega
  simp [handleIdle, h1, h2, h0, sub64_self, h3, idleOutputs]

theorem handleIdle_run (c : AutomationController) (nowMs : Nat) (inp : Inputs)
    (hcool : inp.liquidTempC ≤ c.cfg_.targetTempC)
    (hmax : sub64 nowMs c.stateStartMs_ < c.cfg_.idleMaxMs)
    (h0 : c.idleCycleStartMs_ ≠ 0) (hr : c.idlePumpRunning_ = true)
    (hel : sub64 nowMs c.idleCycleStartMs_ < c.cfg_.idlePumpRunMs) :
    c.handleIdle nowMs inp = (idleOutputs c.cfg_ true, c) := by
  have h1 : ¬ (inp.liquidTempC > c.cfg_.targetTempC) := not_lt.mpr hcool
  have h2 : ¬ (sub64 nowMs c.stateStartMs_ ≥ c.cfg_.idleMaxMs) := by omega
  have h3 : ¬ (c.cfg_.idlePumpRunMs ≤ sub64 nowMs c.idleCycleStartMs_) := by omega
  simp [handleIdle, h1, h2, h0, hr, h3, idleOutputs]

theorem handleIdle_run_end (c : AutomationController) (nowMs : Nat) (inp : Inputs)
    (hcool : inp.liquidTempC ≤ c.cfg_.targetTempC)
    (hmax : sub64 nowMs c.stateStartMs_ < c.cfg_.idleMaxMs)
    (h0 : c.idleCycleStartMs_ ≠ 0) (hr : c.idlePumpRunning_ = true)
    (hel : c.cfg_.idlePumpRunMs ≤ sub64 nowMs c.idleCycleStartMs_) :
    c.handleIdle nowMs inp =
      (idleOutputs c.cfg_ false,
       { c with idlePumpRunning_ := false, idleCycleStartMs_ := nowMs }) := by
  have h1 : ¬ (inp.liquidTempC > c.cfg_.targetTempC) := not_lt.mpr hcool
  have h2 : ¬ (sub64 nowMs c.stateStartMs_ ≥ c.cfg_.idleMaxMs) := by omega
  simp [handleIdle, h1, h2, h0, hr, hel, idleOutputs]

theorem handleIdle_rest (c : AutomationController) (nowMs : Nat) (inp : Inputs)
    (hcool : inp.liquidTempC ≤ c.cfg_.targetTempC)
    (hmax : sub64 nowMs c.stateStartMs_ < c.cfg_.idleMaxMs)
    (h0 : c.idleCycleStartMs_ ≠ 0) (hr : c.idlePumpRunning_ = false)
    (hel : sub64 nowMs c.idleCycleStartMs_ < c.cfg_.idlePumpRestMs) :
    c.handleIdle nowMs inp = (idleOutputs c.cfg_ false, c) := by
  have h1 : ¬ (inp.liquidTempC > c.cfg_.targetTempC) := not_lt.mpr hcool
  have h2 : ¬ (sub64 nowMs c.stateStartMs_ ≥ c.cfg_.idleMaxMs) := by omega
  have h3 : ¬ (c.cfg_.idlePumpRestMs ≤ sub64 nowMs c.idleCycleStartMs_) := by omega
  simp [handleIdle, h1, h2, h0, hr, h3, idleOutputs]

theorem handleIdle_rest_end (c : AutomationController) (nowMs : Nat) (inp : Inputs)
    (hcool : inp.liquidTempC ≤ c.cfg_.targetTempC)
    (hmax : sub64 nowMs c.stateStartMs_ < c.cfg_.idleMaxMs)
    (h0 : c.idleCycleStartMs_ ≠ 0) (hr : c.idlePumpRunning_ = false)
    (hel : c.cfg_.idlePumpRestMs ≤ sub64 nowMs c.idleCycleStartMs_) :
    c.handleIdle nowMs inp =
      (idleOutputs c.cfg_ true,
       { c with idlePumpRunning_ := true, idleCycleStartMs_ := nowMs }) := by
  have h1 : ¬ (inp.liquidTempC > c.cfg_.targetTempC) := not_lt.mpr hcool
  have h2 : ¬ (sub64 nowMs c.stateStartMs_ ≥ c.cfg_.idleMaxMs) := by omega
  simp [handleIdle, h1, h2, h0, hr, hel, idleOutputs]

theorem idle_tick (cfg : Config) (d T : Nat) (inp : Inputs)
    (hrun : cfg.idlePumpRunMs = 40000) (hrest : cfg.idlePumpRestMs = 20000)
    (hmax : 100000 ≤ cfg.idleMaxMs) (hsafe : cfg.targetTempC ≤ cfg.safetyTempC)
    (hoff : 0 ≤ cfg.fanTriggerOffsetC)
    (hmode : inp.mode = Mode.Auto) (hlo : -100 < inp.liquidTempC) (hhi : inp.liquidTempC < 125)
    (hcool : inp.liquidTempC ≤ cfg.targetTempC)
    (hd : 0 < d) (hT0 : T = 0 ∨ d ≤ T) (hT : T < 100000)
    (h4 : T < 40000 + d → T ≤ 40000) (h6 : T < 60000 + d → T ≤ 60000) :
    (idlePhase cfg d T).update (T + d) inp =
      (idleOutputs cfg (decide (T + d < 40000 + d ∨ 60000 + d ≤ T + d)),
       idlePhase cfg d (T + d)) := by
  have hv : isValidTemp inp.liquidTempC = true := (isValidTemp_iff _).mpr ⟨hlo, hhi⟩
  have hs : ¬ inp.liquidTempC > (idlePhase cfg d T).cfg_.safetyTempC := by
    simp only [idlePhase]; linarith
  have hnf : ((idlePhase cfg d T).withStart (T + d)).shouldStartFanCycle (T + d)
      inp.liquidTempC = false :=
    shouldStartFanCycle_withStart_false _ _ _ (Or.inl (by simp only [idlePhase]; linarith))
  rw [update_auto _ _ _ hv hs hmode, withFanTrigger_of_not _ _ _ hnf]
  have hws : (idlePhase cfg d T).withStart (T + d) =
      { idlePhase cfg d T with stateStartMs_ := d } := by
    unfold withStart
    rcases hT0 with h0 | hge
    · subst h0
      simp [idlePhase]
    · have hmin : min T d = d := Nat.min_eq_right hge
      simp [idlePhase, hmin]
      omega
  rw [hws]
  show AutomationController.handleIdle _ (T + d) inp = _
  have hsub : sub64 (T + d) d = T := by
    unfold sub64 U64
    omega
  have hmd : min (T + d) d = d := Nat.min_eq_right (by omega)
  rcases hT0 with h0 | hge
  · subst h0
    rw [handleIdle_init _ _ _ hcool (by simp only [idlePhase, hsub]; omega)
      (by simp [idlePhase]) (by simp only [idlePhase, hrun]; omega)]
    simp [idlePhase, idleOutputs]
  · have hmin : min T d = d := Nat.min_eq_right hge
    by_cases c1 : T < 40000
    · have e1 : T < 40000 + d := by omega
      have e2 : T + d < 40000 + d := by omega
      rw [handleIdle_run _ _ _ hcool (by simp only [idlePhase, hsub]; omega)
        (by simp only [idlePhase, e1, hmin, if_true]; omega) (by simp [idlePhase, e1])
        (by simp only [idlePhase, e1, hmin, if_true, hsub, hrun]; omega)]
      simp [idlePhase, idleOutputs, e1, e2, hmin, hmd]
    · by_cases c2 : T < 40000 + d
      · have e0 : T = 40000 := by have := h4 c2; omega
        have e2 : ¬ (T + d < 40000 + d) := by omega
        have e3 : T + d < 60000 + d := by omega
        have e4 : ¬ (60000 + d ≤ T + d) := by omega
        rw [handleIdle_run_end _ _ _ hcool (by simp only [idlePhase, hsub]; omega)
          (by simp only [idlePhase, c2, hmin, if_true]; omega) (by simp [idlePhase, c2])
          (by simp only [idlePhase, c2, hmin, if_true, hsub, hrun]; omega)]
        simp [idlePhase, idleOutputs, c2, e2, e3, e4, hmin, hmd]
        omega
      · by_cases c3 : T < 60000
        · have e1 : T < 60000 + d := by omega
          have e2 : ¬ (T + d < 40000 + d) := by omega
          have e3 : T + d < 60000 + d := by omega
          have e4 : ¬ (60000 + d ≤ T + d) := by omega
          have e5 : ¬ (60000 + d ≤ T) := by omega
          have hsub2 : sub64 (T + d) (40000 + d) = T - 40000 := by
            unfold sub64 U64
            omega
          rw [handleIdle_rest _ _ _ hcool (by simp only [idlePhase, hsub]; omega)
            (by simp only [idlePhase, c2, e1, if_true, if_false]; omega)
            (by simp [idlePhase, c2, e5])
            (by simp only [idlePhase, c2, e1, if_true, if_false, hsub2, hrest]; omega)]
          simp [idlePhase, idleOutputs, c2, e1, e2, e3, e4, e5]
        · by_cases c4 : T < 60000 + d
          · have e0 : T = 60000 := by have := h6 c4; omega
            have e2 : ¬ (T + d < 40000 + d) := by omega
            have e3 : ¬ (T + d < 60000 + d) := by omega
            have e4 : 60000 + d ≤ T + d := by omega
            have e5 : ¬ (60000 + d ≤ T) := by omega
            have hsub2 : sub64 (T + d) (40000 + d) = T - 40000 := by
              unfold sub64 U64
              omega
            rw [handleIdle_rest_end _ _ _ hcool (by simp only [idlePhase, hsub]; omega)
              (by simp only [idlePhase, c2, c4, if_true, if_false]; omega)
              (by simp [idlePhase, c2, e5])
              (by simp only [idlePhase, c2, c4, if_true, if_false, hsub2, hrest]; omega)]
            simp [idlePhase, idleOutputs, c2, c4, e2, e3, e4, e5]
            omega
          · have e2 : ¬ (T + d < 40000 + d) := by omega
            have e3 : ¬ (T + d < 60000 + d) := by omega
            have e4 : 60000 + d ≤ T + d := by omega
            have e5 : 60000 + d ≤ T := by omega
            have hsub2 : sub64 (T + d) (60000 + d) = T - 60000 := by
              unfold sub64 U64
              omega
            rw [handleIdle_run _ _ _ hcool (by simp only [idlePhase, hsub]; omega)
              (by simp only [idlePhase, c2, c4, if_false]; omega)
              (by simp [idlePhase, c2, e5])
              (by simp only [idlePhase, c2, c4, if_false, hsub2, hrun]; omega)]
            simp [idlePhase, idleOutputs, c2, c4, e2, e3, e4, e5]

theorem idle_first_tick (cfg : Config) (d : Nat) (inp : Inputs)
    (hrun : cfg.idlePumpRunMs = 40000) (hmax : 100000 ≤ cfg.idleMaxMs)
    (hsafe : cfg.targetTempC ≤ cfg.safetyTempC) (hoff : 0 ≤ cfg.fanTriggerOffsetC)
    (hmode : inp.mode = Mode.Auto) (hlo : -100 < inp.liquidTempC) (hhi : inp.liquidTempC < 125)
    (hcool : inp.liquidTempC ≤ cfg.targetTempC) :
    AutomationController.update { cfg_ := cfg } 0 inp =
      (idleOutputs cfg true, idlePhase cfg d 0) := by
  have hv : isValidTemp inp.liquidTempC = true := (isValidTemp_iff _).mpr ⟨hlo, hhi⟩
  have hs : ¬ inp.liquidTempC > cfg.safetyTempC := by linarith
  rw [update_auto _ _ _ hv hs hmode,
    withFanTrigger_of_not _ _ _
      (shouldStartFanCycle_withStart_false _ _ _ (Or.inl (by show _ ≤ cfg.targetTempC + _; linarith)))]
  have hws : AutomationController.withStart { cfg_ := cfg } 0 = { cfg_ := cfg } := by
    simp [withStart]
  rw [hws]
  show AutomationController.handleIdle _ 0 inp = _
  rw [handleIdle_init _ _ _ hcool (by simp only [sub64_self]; omega) rfl
    (by simp only [hrun]; omega)]
  simp [idlePhase, idleOutputs]

theorem idle_cadence (cfg : Config) (d : Nat) (liquid ext : Nat → ℚ)
    (hrun : cfg.idlePumpRunMs = 40000) (hrest : cfg.idlePumpRestMs = 20000)
    (hmax : 100000 ≤ cfg.idleMaxMs) (hsafe : cfg.targetTempC ≤ cfg.safetyTempC)
    (hoff : 0 ≤ cfg.fanTriggerOffsetC) (hd : d ∣ 20000)
    (htemp : ∀ j, -100 < liquid j ∧ liquid j < 125 ∧ liquid j ≤ cfg.targetTempC)
    (k : Nat) (hk : k * d < 100000 + d) :
    outputAt { cfg_ := cfg } (cadence d liquid ext) k =
        idleOutputs cfg (decide (k * d < 40000 + d ∨ 60000 + d ≤ k * d)) ∧
      stateAfter { cfg_ := cfg } (cadence d liquid ext) (k + 1) = idlePhase cfg d (k * d) := by
  have hdpos : 0 < d := Nat.pos_of_dvd_of_pos hd (by decide)
  induction k with
  | zero =>
    have h := idle_first_tick cfg d (cadence d liquid ext 0).2 hrun hmax hsafe hoff rfl
      (htemp 0).1 (htemp 0).2.1 (htemp 0).2.2
    simp only [outputAt, stateAfter, cadence, Nat.zero_mul] at h ⊢
    rw [h]
    simp
  | succ n ih =>
    have hn : n * d < 100000 := by
      have : (n + 1) * d = n * d + d := by ring
      omega
    obtain ⟨_, hst⟩ := ih (by omega)
    have h4 : n * d < 40000 + d → n * d ≤ 40000 :=
      mul_le_of_lt_add d n 40000 (Dvd.dvd.mul_left hd 2 |> fun h => by simpa using h)
    have h6 : n * d < 60000 + d → n * d ≤ 60000 :=
      mul_le_of_lt_add d n 60000 (Dvd.dvd.mul_left hd 3 |> fun h => by simpa using h)
    have hT0 : n * d = 0 ∨ d ≤ n * d := by
      rcases Nat.eq_zero_or_pos n with h | h
      · left; simp [h]
      · right; exact Nat.le_mul_of_pos_left d h
    have h := idle_tick cfg d (n * d) (cadence d liquid ext (n + 1)).2 hrun hrest hmax hsafe hoff
      rfl (htemp (n + 1)).1 (htemp (n + 1)).2.1 (htemp (n + 1)).2.2 hdpos hT0 hn h4 h6
    have hnd : (n + 1) * d = n * d + d := by ring
    have e1 : outputAt { cfg_ := cfg } (cadence d liquid ext) (n + 1) =
        ((stateAfter { cfg_ := cfg } (cadence d liquid ext) (n + 1)).update
          ((n + 1) * d) (cadence d liquid ext (n + 1)).2).1 := rfl
    have e2 : stateAfter { cfg_ := cfg } (cadence d liquid ext) (n + 1 + 1) =
        ((stateAfter { cfg_ := cfg } (cadence d liquid ext) (n + 1)).update
          ((n + 1) * d) (cadence d liquid ext (n + 1)).2).2 := rfl
    rw [e1, e2, hst, hnd, h]
    exact ⟨rfl, rfl⟩

/-- C6 (idle duty cycle, as amended): a freshly constructed controller with
`idlePumpRunMs = 40000`, `idlePumpRestMs = 20000`, `idlePumpPWM = 204` (and, as
in the defaults, `idleMaxMs ≥ 100000`, `targetTempC ≤ safetyTempC`,
`fanTriggerOffsetC ≥ 0`) is driven in `Auto` mode by ticks at `t = 0, d, 2d, ...`
for a cadence `d` that divides 20000, with a plausible reading at or below
`targetTempC` at every tick.  Then every tick reports `IDLE` with the fan off;
the pump duty is 204 for `t` in `[0, 40000 + d)`, 0 for `t` in
`[40000 + d, 60000 + d)` and 204 for `t` in `[60000 + d, 100000 + d)`: the duty
cycle is timed from the first non-zero tick `d`. -/
theorem idle_duty_cycle (cfg : Config) (d : Nat) (liquid ext : Nat → ℚ) (k : Nat)
    (hrun : cfg.idlePumpRunMs = 40000) (hrest : cfg.idlePumpRestMs = 20000)
    (hpwm : cfg.idlePumpPWM = 204)
    (hmax : 100000 ≤ cfg.idleMaxMs) (hsafe : cfg.targetTempC ≤ cfg.safetyTempC)
    (hoff : 0 ≤ cfg.fanTriggerOffsetC) (hd : d ∣ 20000)
    (htemp : ∀ j, -100 < liquid j ∧ liquid j < 125 ∧ liquid j ≤ cfg.targetTempC)
    (hk : k * d < 100000 + d) :
    (outputAt { cfg_ := cfg } (cadence d liquid ext) k).state = "IDLE" ∧
    (outputAt { cfg_ := cfg } (cadence d liquid ext) k).fanOn = false ∧
    (k * d < 40000 + d →
      (outputAt { cfg_ := cfg } (cadence d liquid ext) k).pumpPWM = 204) ∧
    (40000 + d ≤ k * d → k * d < 60000 + d →
      (outputAt { cfg_ := cfg } (cadence d liquid ext) k).pumpPWM = 0) ∧
    (60000 + d ≤ k * d →
      (outputAt { cfg_ := cfg } (cadence d liquid ext) k).pumpPWM = 204) := by
  rw [(idle_cadence cfg d liquid ext hrun hrest hmax hsafe hoff hd htemp k hk).1]
  refine ⟨rfl, rfl, ?_, ?_, ?_⟩
  · intro h
    simp [idleOutputs, h, hpwm]
  · intro h1 h2
    have e1 : ¬ (k * d < 40000 + d) := by omega
    have e2 : ¬ (60000 + d ≤ k * d) := by omega
    simp [idleOutputs, e1, e2]
  · intro h
    simp [idleOutputs, h, hpwm]

/-- Witness of C6: default configuration, cadence 5000 ms, 4 °C throughout; the
tick at `t = 45000` (number 9) is the first one of the rest phase. -/
theorem idle_duty_cycle_witness :
    (outputAt freshDefault (cadence 5000 steady4 steady18) 9).state = "IDLE" ∧
    (outputAt freshDefault (cadence 5000 steady4 steady18) 9).fanOn = false ∧
    (outputAt freshDefault (cadence 5000 steady4 steady18) 9).pumpPWM = 0 := by
  have h := idle_duty_cycle {} 5000 steady4 steady18 9 rfl rfl rfl (by decide)
    (by norm_num) (by norm_num) (by decide) (fun j => by norm_num [steady4]) (by decide)
  exact ⟨h.1, h.2.1, h.2.2.2.1 (by decide) (by decide)⟩

/-- Counterexample to C6 as stated: default configuration, cadence 5000 ms, 4 °C
throughout.  The tick at `t = 40000` (number 8) still outputs the idle duty 204
where the claim has 0, and the tick at `t = 60000` (number 12) outputs 0 where
the claim has 204. -/
theorem idle_duty_cycle_counterexample :
    (5000 ∣ 20000 ∧ (∀ j, steady4 j ≤ freshDefault.cfg_.targetTempC) ∧
      (cadence 5000 steady4 steady18 8).1 = 40000 ∧
      (cadence 5000 steady4 steady18 12).1 = 60000) ∧
    (outputAt freshDefault (cadence 5000 steady4 steady18) 8).pumpPWM = 204 ∧
    (outputAt freshDefault (cadence 5000 steady4 steady18) 12).pumpPWM = 0 := by
  have h8 := (idle_cadence {} 5000 steady4 steady18 rfl rfl (by decide)
    (by norm_num) (by norm_num) (by decide) (fun j => by norm_num [steady4]) 8 (by decide)).1
  have h12 := (idle_cadence {} 5000 steady4 steady18 rfl rfl (by decide)
    (by norm_num) (by norm_num) (by decide) (fun j => by norm_num [steady4]) 12 (by decide)).1
  refine ⟨⟨by decide, fun j => by norm_num [steady4, freshDefault], rfl, rfl⟩, ?_, ?_⟩
  · show (outputAt { cfg_ := {} } (cadence 5000 steady4 steady18) 8).pumpPWM = 204
    rw [h8]
    simp [idleOutputs]
  · show (outputAt { cfg_ := {} } (cadence 5000 steady4 steady18) 12).pumpPWM = 0
    rw [h12]
    simp [idleOutputs]

/-! ## Cooling target and pump PWM -/

theorem clampInt_range (v : Int) : 50 ≤ clampInt v 50 200 ∧ clampInt v 50 200 ≤ 200 := by
  unfold clampInt
  constructor
  · exact le_max_left _ _
  · exact max_le (by decide) (min_le_left _ _)

/-- C8 (cooling target formula): for every configuration,
`computeCoolingTargetC` returns
`max(targetTempC - (aiOptimizationFactor + learnedEfficiencyBoost), -2)`,
whatever `liquidTempC` and `externalTempC` are; hence the result is never below
`-2` and does not increase when the total boost grows (for a fixed
`targetTempC`). -/
theorem cooling_target_formula (c : AutomationController) (liquidTempC externalTempC : ℚ) :
    c.computeCoolingTargetC liquidTempC externalTempC =
      max (c.cfg_.targetTempC - (c.cfg_.aiOptimizationFactor + c.cfg_.learnedEfficiencyBoost))
        (-2) ∧
    (∀ l e : ℚ,
      c.computeCoolingTargetC l e = c.computeCoolingTargetC liquidTempC externalTempC) ∧
    -2 ≤ c.computeCoolingTargetC liquidTempC externalTempC ∧
    (∀ c' : AutomationController, c'.cfg_.targetTempC = c.cfg_.targetTempC →
      c.cfg_.aiOptimizationFactor + c.cfg_.learnedEfficiencyBoost ≤
        c'.cfg_.aiOptimizationFactor + c'.cfg_.learnedEfficiencyBoost →
      c'.computeCoolingTargetC liquidTempC externalTempC ≤
        c.computeCoolingTargetC liquidTempC externalTempC) := by
  refine ⟨?_, fun _ _ => rfl, le_max_right _ _, ?_⟩
  · have e : c.cfg_.targetTempC +
          -1 * (c.cfg_.aiOptimizationFactor + c.cfg_.learnedEfficiencyBoost) =
        c.cfg_.targetTempC - (c.cfg_.aiOptimizationFactor + c.cfg_.learnedEfficiencyBoost) := by
      ring
    show max (c.cfg_.targetTempC +
      -1 * (c.cfg_.aiOptimizationFactor + c.cfg_.learnedEfficiencyBoost)) (-2) = _
    rw [e]
  · intro c' ht hb
    unfold computeCoolingTargetC
    apply max_le_max _ (le_refl _)
    rw [ht]
    linarith

/-- Witness of C8: target 5, factor 1.05 and boost 0.10 give 3.85. -/
theorem cooling_target_formula_witness :
    mainController.computeCoolingTargetC 9.5 18 = 3.85 := by
  rw [(cooling_target_formula mainController 9.5 18).1]
  norm_num [mainController, mainCfg]

theorem handlePumpCycle_pwm (c : AutomationController) (nowMs : Nat) (inp : Inputs)
    (h : (c.handlePumpCycle nowMs inp).1.state = "PUMP_CYCLE") :
    50 ≤ (c.handlePumpCycle nowMs inp).1.pumpPWM ∧
      (c.handlePumpCycle nowMs inp).1.pumpPWM ≤ 200 := by
  unfold handlePumpCycle at h ⊢
  dsimp only at h ⊢
  split at h
  · simp at h
  · next hn =>
    rw [if_neg hn]
    exact clampInt_range _

theorem handleIdle_pwm (c : AutomationController) (nowMs : Nat) (inp : Inputs)
    (h : (c.handleIdle nowMs inp).1.state = "PUMP_CYCLE") :
    50 ≤ (c.handleIdle nowMs inp).1.pumpPWM ∧ (c.handleIdle nowMs inp).1.pumpPWM ≤ 200 := by
  unfold handleIdle at h ⊢
  dsimp only at h ⊢
  split at h
  · next hp =>
    rw [if_pos hp]
    exact handlePumpCycle_pwm _ nowMs inp h
  · simp at h

theorem handleFanCycle_state (c : AutomationController) (nowMs : Nat) (inp : Inputs) :
    (c.handleFanCycle nowMs inp).1.state = "FAN_CYCLE" := by
  unfold handleFanCycle
  dsimp only
  split <;> rfl

theorem handleCooldown_state (c : AutomationController) (nowMs : Nat) (inp : Inputs) :
    (c.handleCooldown nowMs inp).1.state = "COOLDOWN" := by
  unfold handleCooldown
  dsimp only
  split <;> rfl

theorem dispatch_pwm (c : AutomationController) (nowMs : Nat) (inp : Inputs)
    (h : (c.dispatch nowMs inp).1.state = "PUMP_CYCLE") :
    50 ≤ (c.dispatch nowMs inp).1.pumpPWM ∧ (c.dispatch nowMs inp).1.pumpPWM ≤ 200 := by
  unfold dispatch at h ⊢
  split at h
  · exact handleIdle_pwm c nowMs inp h
  · exact handlePumpCycle_pwm c nowMs inp h
  · rw [handleFanCycle_state] at h
    simp at h
  · rw [handleCooldown_state] at h
    simp at h

theorem update_notAuto (c : AutomationController) (nowMs : Nat) (inp : Inputs)
    (hv : isValidTemp inp.liquidTempC = true) (hs : ¬ inp.liquidTempC > c.cfg_.safetyTempC)
    (hm : inp.mode ≠ Mode.Auto) :
    c.update nowMs inp =
      ({ state := if inp.mode = Mode.Off then "OFF" else "MANUAL", note := "Automation disabled" },
       { c with
         current_ := AutoState.Idle
         stateStartMs_ := nowMs
         idleCycleStartMs_ := 0
         idlePumpRunning_ := false }) := by
  unfold update
  rw [if_neg (by simp [hv]), if_neg hs, if_pos hm]

/-- C9 (PWM clamp): for every configuration, whatever the tuning factors are,
and every `liquidTempC`, `coolingTarget` and `externalTempC`, `computePumpPWM`
returns an integer in `[50, 200]`; consequently every tick of `update` that
reports `PUMP_CYCLE` has `50 ≤ pumpPWM ≤ 200`.  The bounds come from the final
`clampInt`, which lands in `[50, 200]` for every integer `v` it is given. -/
theorem pump_pwm_clamped (c : AutomationController) (liquidTempC coolingTargetC externalTempC : ℚ)
    (nowMs : Nat) (inp : Inputs) (v : Int) :
    (50 ≤ clampInt v 50 200 ∧ clampInt v 50 200 ≤ 200) ∧
    (50 ≤ c.computePumpPWM liquidTempC coolingTargetC externalTempC ∧
      c.computePumpPWM liquidTempC coolingTargetC externalTempC ≤ 200) ∧
    ((c.update nowMs inp).1.state = "PUMP_CYCLE" →
      50 ≤ (c.update nowMs inp).1.pumpPWM ∧ (c.update nowMs inp).1.pumpPWM ≤ 200) := by
  refine ⟨clampInt_range v, clampInt_range _, ?_⟩
  by_cases hv : isValidTemp inp.liquidTempC = true
  · by_cases hs : inp.liquidTempC > c.cfg_.safetyTempC
    · rw [update_hot c nowMs inp hv hs]
      intro h
      simp at h
    · by_cases hm : inp.mode = Mode.Auto
      · rw [update_auto c nowMs inp hv hs hm]
        exact dispatch_pwm _ nowMs inp
      · rw [update_notAuto c nowMs inp hv hs hm]
        intro h
        dsimp only at h
        split at h <;> simp at h
  · rw [update_invalid c nowMs inp (by simpa using hv)]
    intro h
    simp at h

/-- Witness of C9: the first tick of `main` reports `PUMP_CYCLE` with a duty of
168, inside `[50, 200]`. -/
theorem pump_pwm_clamped_witness :
    (mainController.update 0 mainFirstInputs).1.state = "PUMP_CYCLE" ∧
    50 ≤ (mainController.update 0 mainFirstInputs).1.pumpPWM ∧
    (mainController.update 0 mainFirstInputs).1.pumpPWM ≤ 200 := by
  have hst : (mainController.update 0 mainFirstInputs).1.state = "PUMP_CYCLE" := by
    simp [update, isValidTemp, mainController, mainFirstInputs, mainCfg, shouldStartFanCycle,
      sub64, U64, handleIdle, handlePumpCycle, computeCoolingTargetC]
    norm_num
  exact ⟨hst, (pump_pwm_clamped mainController 0 0 0 0 mainFirstInputs 0).2.2 hst⟩

/-! ## Mode gate -/

/-- C10 (mode gate): for every internal state and every tick whose mode is not
`Auto` and whose reading is plausible and not above `safetyTempC`, `update`
returns `pumpPWM = 0`, `fanOn = false` and the label `OFF` in mode `Off`,
`MANUAL` in mode `Manual`; after the tick `current = Idle`,
`stateStartMs = now`, `idleCycleStartMs = 0` and `idlePumpRunning = false`
(the latch `fanActive` and the configuration are left as they were). -/
theorem mode_gate (c : AutomationController) (nowMs : Nat) (inp : Inputs)
    (hmode : inp.mode ≠ Mode.Auto)
    (hlo : -100 < inp.liquidTempC) (hhi : inp.liquidTempC < 125)
    (hsafe : inp.liquidTempC ≤ c.cfg_.safetyTempC) :
    (c.update nowMs inp).1.pumpPWM = 0 ∧
    (c.update nowMs inp).1.fanOn = false ∧
    (inp.mode = Mode.Off → (c.update nowMs inp).1.state = "OFF") ∧
    (inp.mode = Mode.Manual → (c.update nowMs inp).1.state = "MANUAL") ∧
    (c.update nowMs inp).2 =
      { c with
        current_ := AutoState.Idle
        stateStartMs_ := nowMs
        idleCycleStartMs_ := 0
        idlePumpRunning_ := false } := by
  rw [update_notAuto c nowMs inp ((isValidTemp_iff _).mpr ⟨hlo, hhi⟩) (not_lt.mpr hsafe) hmode]
  refine ⟨rfl, rfl, ?_, ?_, rfl⟩
  · intro h
    simp [h]
  · intro h
    simp [h]

/-- Witness of C10: a `Manual` tick at 5000 with 4 °C on a controller that is in
`Cooldown` since 1000. -/
theorem mode_gate_witness :
    (manual4Inputs.mode ≠ Mode.Auto ∧ -100 < manual4Inputs.liquidTempC ∧
      manual4Inputs.liquidTempC < 125 ∧
      manual4Inputs.liquidTempC ≤ cooldownSince1000.cfg_.safetyTempC) ∧
    (cooldownSince1000.update 5000 manual4Inputs).1.pumpPWM = 0 ∧
    (cooldownSince1000.update 5000 manual4Inputs).1.fanOn = false ∧
    (cooldownSince1000.update 5000 manual4Inputs).1.state = "MANUAL" ∧
    (cooldownSince1000.update 5000 manual4Inputs).2.current_ = AutoState.Idle ∧
    (cooldownSince1000.update 5000 manual4Inputs).2.stateStartMs_ = 5000 ∧
    (cooldownSince1000.update 5000 manual4Inputs).2.idleCycleStartMs_ = 0 ∧
    (cooldownSince1000.update 5000 manual4Inputs).2.idlePumpRunning_ = false := by
  have hm : manual4Inputs.mode ≠ Mode.Auto := by simp [manual4Inputs]
  have hlo : -100 < manual4Inputs.liquidTempC := by norm_num [manual4Inputs]
  have hhi : manual4Inputs.liquidTempC < 125 := by norm_num [manual4Inputs]
  have hs : manual4Inputs.liquidTempC ≤ cooldownSince1000.cfg_.safetyTempC := by
    norm_num [manual4Inputs, cooldownSince1000]
  have h := mode_gate cooldownSince1000 5000 manual4Inputs hm hlo hhi hs
  refine ⟨⟨hm, hlo, hhi, hs⟩, h.1, h.2.1, h.2.2.2.1 rfl, ?_, ?_, ?_, ?_⟩ <;> rw [h.2.2.2.2]

/-! ## Case analysis of the handlers -/

theorem handlePumpCycle_cases (c : AutomationController) (nowMs : Nat) (inp : Inputs) :
    (∃ note, c.handlePumpCycle nowMs inp =
      ({ state := "COOLDOWN", note := note },
       { c with
         current_ := AutoState.Cooldown
         stateStartMs_ := nowMs
         idleCycleStartMs_ := 0
         idlePumpRunning_ := false })) ∨
    c.handlePumpCycle nowMs inp =
      ({ state := "PUMP_CYCLE", fanOn := true,
         pumpPWM := c.computePumpPWM inp.liquidTempC
           (c.computeCoolingTargetC inp.liquidTempC inp.externalTempC) inp.externalTempC,
         note := "Active cooling" }, c) := by
  unfold handlePumpCycle
  dsimp only
  split
  · exact Or.inl ⟨_, rfl⟩
  · exact Or.inr rfl

theorem eq_with_running (c : AutomationController) (b : Bool) (h : c.idlePumpRunning_ = b) :
    c = { c with idleCycleStartMs_ := c.idleCycleStartMs_, idlePumpRunning_ := b } := by
  cases c
  simp only at h
  simp [h]

theorem handleIdle_cases (c : AutomationController) (nowMs : Nat) (inp : Inputs) :
    c.handleIdle nowMs inp =
      handlePumpCycle
        { c with
          current_ := AutoState.PumpCycle
          stateStartMs_ := nowMs
          idleCycleStartMs_ := 0
          idlePumpRunning_ := false } nowMs inp ∨
    ∃ start running, c.handleIdle nowMs inp =
      (idleOutputs c.cfg_ running,
       { c with idleCycleStartMs_ := start, idlePumpRunning_ := running }) := by
  unfold handleIdle
  dsimp only
  split
  · exact Or.inl rfl
  · right
    by_cases h0 : c.idleCycleStartMs_ = 0
    · by_cases h1 : sub64 nowMs nowMs ≥ c.cfg_.idlePumpRunMs
      · exact ⟨nowMs, false, by simp [h0, h1, idleOutputs]⟩
      · exact ⟨nowMs, true, by simp [h0, h1, idleOutputs]⟩
    · by_cases hr : c.idlePumpRunning_ = true
      · by_cases h1 : sub64 nowMs c.idleCycleStartMs_ ≥ c.cfg_.idlePumpRunMs
        · exact ⟨nowMs, false, by simp [h0, hr, h1, idleOutputs]⟩
        · exact ⟨c.idleCycleStartMs_, true, by
            simp [h0, hr, h1, idleOutputs]
            exact eq_with_running c true hr⟩
      · have hr2 : c.idlePumpRunning_ = false := by simpa using hr
        by_cases h1 : sub64 nowMs c.idleCycleStartMs_ ≥ c.cfg_.idlePumpRestMs
        · exact ⟨nowMs, true, by simp [h0, hr2, h1, idleOutputs]⟩
        · exact ⟨c.idleCycleStartMs_, false, by
            simp [h0, hr2, h1, idleOutputs]
            exact eq_with_running c false hr2⟩

theorem handleFanCycle_cases (c : AutomationController) (nowMs : Nat) (inp : Inputs) :
    (∃ note, c.handleFanCycle nowMs inp =
      ({ state := "FAN_CYCLE", fanOn := true, pumpPWM := 0, note := note },
       { c with current_ := AutoState.Cooldown, stateStartMs_ := nowMs, fanActive_ := false })) ∨
    c.handleFanCycle nowMs inp =
      ({ state := "FAN_CYCLE", fanOn := true, pumpPWM := 0,
         note := "High-temp response (fan only)" }, c) := by
  unfold handleFanCycle
  dsimp only
  split
  · exact Or.inl ⟨_, rfl⟩
  · exact Or.inr rfl

theorem handleCooldown_cases (c : AutomationController) (nowMs : Nat) (inp : Inputs) :
    c.handleCooldown nowMs inp =
      ({ state := "COOLDOWN", fanOn := false, pumpPWM := 0, note := "Anti-thrashing delay" },
       { c with
         current_ := AutoState.Idle
         stateStartMs_ := nowMs
         idleCycleStartMs_ := 0
         idlePumpRunning_ := false }) ∨
    c.handleCooldown nowMs inp =
      ({ state := "COOLDOWN", fanOn := false, pumpPWM := 0, note := "Anti-thrashing delay" }, c) := by
  unfold handleCooldown
  dsimp only
  split
  · exact Or.inl rfl
  · exact Or.inr rfl

theorem handlePumpCycle_label (c : AutomationController) (nowMs : Nat) (inp : Inputs) :
    (c.handlePumpCycle nowMs inp).1.state = "COOLDOWN" ∨
      (c.handlePumpCycle nowMs inp).1.state = "PUMP_CYCLE" := by
  rcases handlePumpCycle_cases c nowMs inp with ⟨note, h⟩ | h
  · exact Or.inl (by rw [h])
  · exact Or.inr (by rw [h])

theorem handleIdle_label (c : AutomationController) (nowMs : Nat) (inp : Inputs) :
    (c.handleIdle nowMs inp).1.state = "IDLE" ∨
      (c.handleIdle nowMs inp).1.state = "COOLDOWN" ∨
      (c.handleIdle nowMs inp).1.state = "PUMP_CYCLE" := by
  rcases handleIdle_cases c nowMs inp with h | ⟨start, running, h⟩
  · rw [h]
    exact Or.inr (handlePumpCycle_label _ nowMs inp)
  · exact Or.inl (by rw [h]; rfl)

theorem dispatch_label (c : AutomationController) (nowMs : Nat) (inp : Inputs) :
    (c.dispatch nowMs inp).1.state = "IDLE" ∨
      (c.dispatch nowMs inp).1.state = "PUMP_CYCLE" ∨
      (c.dispatch nowMs inp).1.state = "FAN_CYCLE" ∨
      (c.dispatch nowMs inp).1.state = "COOLDOWN" := by
  unfold dispatch
  split
  · rcases handleIdle_label c nowMs inp with h | h | h
    · exact Or.inl h
    · exact Or.inr (Or.inr (Or.inr h))
    · exact Or.inr (Or.inl h)
  · rcases handlePumpCycle_label c nowMs inp with h | h
    · exact Or.inr (Or.inr (Or.inr h))
    · exact Or.inr (Or.inl h)
  · exact Or.inr (Or.inr (Or.inl (handleFanCycle_state c nowMs inp)))
  · exact Or.inr (Or.inr (Or.inr (handleCooldown_state c nowMs inp)))

theorem update_cases (c : AutomationController) (nowMs : Nat) (inp : Inputs) :
    c.update nowMs inp =
        ({ state := "SAFE", note := "Invalid liquid temp reading -> actuators OFF" }, c) ∨
    c.update nowMs inp =
        ({ state := "SAFETY_OVERRIDE", fanOn := true, pumpPWM := 0,
           note := "Liquid temp above safety limit -> fan ON, pump OFF" }, c) ∨
    (inp.mode ≠ Mode.Auto ∧ c.update nowMs inp =
        ({ state := if inp.mode = Mode.Off then "OFF" else "MANUAL",
           note := "Automation disabled" },
         { c with
           current_ := AutoState.Idle
           stateStartMs_ := nowMs
           idleCycleStartMs_ := 0
           idlePumpRunning_ := false })) ∨
    (inp.mode = Mode.Auto ∧ c.update nowMs inp =
        ((c.withStart nowMs).withFanTrigger nowMs inp.liquidTempC).dispatch nowMs inp) := by
  by_cases hv : isValidTemp inp.liquidTempC = true
  · by_cases hs : inp.liquidTempC > c.cfg_.safetyTempC
    · exact Or.inr (Or.inl (update_hot c nowMs inp hv hs))
    · by_cases hm : inp.mode = Mode.Auto
      · exact Or.inr (Or.inr (Or.inr ⟨hm, update_auto c nowMs inp hv hs hm⟩))
      · exact Or.inr (Or.inr (Or.inl ⟨hm, update_notAuto c nowMs inp hv hs hm⟩))
  · exact Or.inl (update_invalid c nowMs inp (by simpa using hv))

theorem withFanTrigger_cfg (c : AutomationController) (nowMs : Nat) (t : ℚ) :
    (c.withFanTrigger nowMs t).cfg_ = c.cfg_ := by
  unfold withFanTrigger
  split <;> rfl

theorem withFanTrigger_cases (c : AutomationController) (nowMs : Nat) (t : ℚ) :
    (c.shouldStartFanCycle nowMs t = true ∧ c.current_ ≠ AutoState.FanCycle ∧
      c.withFanTrigger nowMs t =
        { c with current_ := AutoState.FanCycle, stateStartMs_ := nowMs, fanActive_ := true }) ∨
    ((c.shouldStartFanCycle nowMs t = false ∨ c.current_ = AutoState.FanCycle) ∧
      c.withFanTrigger nowMs t = c) := by
  by_cases h : c.shouldStartFanCycle nowMs t = true
  · by_cases hc : c.current_ = AutoState.FanCycle
    · exact Or.inr ⟨Or.inr hc, by simp [withFanTrigger, hc]⟩
    · exact Or.inl ⟨h, hc, withFanTrigger_of_fire c nowMs t h hc⟩
  · have hf : c.shouldStartFanCycle nowMs t = false := by simpa using h
    exact Or.inr ⟨Or.inl hf, withFanTrigger_of_not c nowMs t hf⟩

theorem shouldStartFanCycle_iff (c : AutomationController) (nowMs : Nat) (t : ℚ) :
    c.shouldStartFanCycle nowMs t = true ↔
      t > c.cfg_.targetTempC + c.cfg_.fanTriggerOffsetC ∧
        sub64 nowMs c.stateStartMs_ > c.cfg_.fanMinDelayMs ∧ c.fanActive_ = false := by
  simp [shouldStartFanCycle, and_assoc]

theorem dispatch_start (c : AutomationController) (nowMs : Nat) (inp : Inputs) :
    (c.dispatch nowMs inp).2.stateStartMs_ = nowMs ∨
      ((c.dispatch nowMs inp).2.current_ = c.current_ ∧
        (c.dispatch nowMs inp).2.stateStartMs_ = c.stateStartMs_) := by
  unfold dispatch
  split
  · rcases handleIdle_cases c nowMs inp with h | ⟨start, running, h⟩
    · rw [h]
      rcases handlePumpCycle_cases
        { c with
          current_ := AutoState.PumpCycle
          stateStartMs_ := nowMs
          idleCycleStartMs_ := 0
          idlePumpRunning_ := false } nowMs inp with ⟨note, h2⟩ | h2
      · exact Or.inl (by rw [h2])
      · exact Or.inl (by rw [h2])
    · exact Or.inr (by rw [h]; exact ⟨rfl, rfl⟩)
  · rcases handlePumpCycle_cases c nowMs inp with ⟨note, h⟩ | h
    · exact Or.inl (by rw [h])
    · exact Or.inr (by rw [h]; exact ⟨rfl, rfl⟩)
  · rcases handleFanCycle_cases c nowMs inp with ⟨note, h⟩ | h
    · exact Or.inl (by rw [h])
    · exact Or.inr (by rw [h]; exact ⟨rfl, rfl⟩)
  · rcases handleCooldown_cases c nowMs inp with h | h
    · exact Or.inl (by rw [h])
    · exact Or.inr (by rw [h]; exact ⟨rfl, rfl⟩)

theorem dispatch_fanActive (c : AutomationController) (nowMs : Nat) (inp : Inputs) :
    (c.dispatch nowMs inp).2.fanActive_ = c.fanActive_ ∨
      (c.current_ = AutoState.FanCycle ∧
        (c.dispatch nowMs inp).2.current_ = AutoState.Cooldown ∧
        (c.dispatch nowMs inp).2.fanActive_ = false) := by
  unfold dispatch
  split
  · rcases handleIdle_cases c nowMs inp with h | ⟨start, running, h⟩
    · rw [h]
      rcases handlePumpCycle_cases
        { c with
          current_ := AutoState.PumpCycle
          stateStartMs_ := nowMs
          idleCycleStartMs_ := 0
          idlePumpRunning_ := false } nowMs inp with ⟨note, h2⟩ | h2
      · exact Or.inl (by rw [h2])
      · exact Or.inl (by rw [h2])
    · exact Or.inl (by rw [h])
  · rcases handlePumpCycle_cases c nowMs inp with ⟨note, h⟩ | h
    · exact Or.inl (by rw [h])
    · exact Or.inl (by rw [h])
  · next hc =>
    rcases handleFanCycle_cases c nowMs inp with ⟨note, h⟩ | h
    · exact Or.inr (by rw [h]; exact ⟨hc, rfl, rfl⟩)
    · exact Or.inl (by rw [h])
  · rcases handleCooldown_cases c nowMs inp with h | h
    · exact Or.inl (by rw [h])
    · exact Or.inl (by rw [h])

theorem dispatch_duty (c : AutomationController) (nowMs : Nat) (inp : Inputs) :
    (c.dispatch nowMs inp).1.pumpPWM = 0 ∨
      ((c.dispatch nowMs inp).1.pumpPWM = c.cfg_.idlePumpPWM ∧
        (c.dispatch nowMs inp).1.state = "IDLE") ∨
      ((50 ≤ (c.dispatch nowMs inp).1.pumpPWM ∧ (c.dispatch nowMs inp).1.pumpPWM ≤ 200) ∧
        (c.dispatch nowMs inp).1.state = "PUMP_CYCLE") := by
  have pump : ∀ c' : AutomationController,
      (c'.handlePumpCycle nowMs inp).1.pumpPWM = 0 ∨
        ((50 ≤ (c'.handlePumpCycle nowMs inp).1.pumpPWM ∧
            (c'.handlePumpCycle nowMs inp).1.pumpPWM ≤ 200) ∧
          (c'.handlePumpCycle nowMs inp).1.state = "PUMP_CYCLE") := by
    intro c'
    rcases handlePumpCycle_cases c' nowMs inp with ⟨note, h⟩ | h
    · exact Or.inl (by rw [h])
    · exact Or.inr (by rw [h]; exact ⟨clampInt_range _, rfl⟩)
  unfold dispatch
  split
  · rcases handleIdle_cases c nowMs inp with h | ⟨start, running, h⟩
    · rw [h]
      rcases pump _ with h2 | h2
      · exact Or.inl h2
      · exact Or.inr (Or.inr h2)
    · rw [h]
      cases running
      · exact Or.inl rfl
      · exact Or.inr (Or.inl ⟨rfl, rfl⟩)
  · rcases pump c with h2 | h2
    · exact Or.inl h2
    · exact Or.inr (Or.inr h2)
  · rcases handleFanCycle_cases c nowMs inp with ⟨note, h⟩ | h
    · exact Or.inl (by rw [h])
    · exact Or.inl (by rw [h])
  · rcases handleCooldown_cases c nowMs inp with h | h
    · exact Or.inl (by rw [h])
    · exact Or.inl (by rw [h])

/-! ## Labels -/

/-- C15 (closed label set): for every configuration, internal state, timestamp
and inputs, the label returned by `update` is one of `SAFE`, `SAFETY_OVERRIDE`,
`OFF`, `MANUAL`, `IDLE`, `PUMP_CYCLE`, `FAN_CYCLE`, `COOLDOWN`; in particular it
is never `UNKNOWN`. -/
theorem update_label_closed (c : AutomationController) (nowMs : Nat) (inp : Inputs) :
    (c.update nowMs inp).1.state ∈
        ["SAFE", "SAFETY_OVERRIDE", "OFF", "MANUAL", "IDLE", "PUMP_CYCLE", "FAN_CYCLE",
          "COOLDOWN"] ∧
      (c.update nowMs inp).1.state ≠ "UNKNOWN" := by
  have key : (c.update nowMs inp).1.state ∈
      ["SAFE", "SAFETY_OVERRIDE", "OFF", "MANUAL", "IDLE", "PUMP_CYCLE", "FAN_CYCLE",
        "COOLDOWN"] := by
    rcases update_cases c nowMs inp with h | h | ⟨_, h⟩ | ⟨_, h⟩
    · rw [h]; simp
    · rw [h]; simp
    · rw [h]
      dsimp only
      split <;> simp
    · rw [h]
      rcases dispatch_label ((c.withStart nowMs).withFanTrigger nowMs inp.liquidTempC) nowMs inp
        with h | h | h | h <;> rw [h] <;> simp
  refine ⟨key, ?_⟩
  intro hu
  rw [hu] at key
  simp at key

/-- C11 (guards are read-only): for every internal state and every tick that
returns `SAFE` or `SAFETY_OVERRIDE`, the controller after the tick is the
controller before it: `current`, `stateStartMs`, `idleCycleStartMs`,
`idlePumpRunning` and `fanActive` are unchanged, so any later tick behaves as
if the guarded tick had not happened. -/
theorem guards_read_only (c : AutomationController) (nowMs : Nat) (inp : Inputs)
    (hlabel : (c.update nowMs inp).1.state = "SAFE" ∨
      (c.update nowMs inp).1.state = "SAFETY_OVERRIDE") :
    ((c.update nowMs inp).2.current_ = c.current_ ∧
      (c.update nowMs inp).2.stateStartMs_ = c.stateStartMs_ ∧
      (c.update nowMs inp).2.idleCycleStartMs_ = c.idleCycleStartMs_ ∧
      (c.update nowMs inp).2.idlePumpRunning_ = c.idlePumpRunning_ ∧
      (c.update nowMs inp).2.fanActive_ = c.fanActive_) ∧
    (∀ (laterMs : Nat) (later : Inputs),
      (c.update nowMs inp).2.update laterMs later = c.update laterMs later) := by
  have key : (c.update nowMs inp).2 = c := by
    rcases update_cases c nowMs inp with h | h | ⟨_, h⟩ | ⟨_, h⟩
    · rw [h]
    · rw [h]
    · rw [h] at hlabel
      dsimp only at hlabel
      split at hlabel <;> simp at hlabel
    · rw [h] at hlabel
      rcases dispatch_label ((c.withStart nowMs).withFanTrigger nowMs inp.liquidTempC) nowMs inp
        with h2 | h2 | h2 | h2 <;> rw [h2] at hlabel <;> simp at hlabel
  rw [key]
  exact ⟨⟨rfl, rfl, rfl, rfl, rfl⟩, fun _ _ => rfl⟩


/-! ## Transitions -/

/-- C13 (every transition resets the state timer): for every internal state
and every tick after which `current` differs from its value before the tick,
`stateStartMs = now` holds after the tick. -/
theorem transition_resets_timer (c : AutomationController) (nowMs : Nat) (inp : Inputs)
    (hchange : (c.update nowMs inp).2.current_ ≠ c.current_) :
    (c.update nowMs inp).2.stateStartMs_ = nowMs := by
  rcases update_cases c nowMs inp with h | h | ⟨_, h⟩ | ⟨_, h⟩
  · rw [h] at hchange
    exact absurd rfl hchange
  · rw [h] at hchange
    exact absurd rfl hchange
  · rw [h]
  · rw [h] at hchange ⊢
    rcases withFanTrigger_cases (c.withStart nowMs) nowMs inp.liquidTempC with
      ⟨_, _, h2⟩ | ⟨_, h2⟩
    · rw [h2]
      rcases dispatch_start
        { c.withStart nowMs with
          current_ := AutoState.FanCycle, stateStartMs_ := nowMs, fanActive_ := true }
        nowMs inp with h3 | ⟨_, h3⟩
      · exact h3
      · exact h3
    · rw [h2] at hchange ⊢
      rcases dispatch_start (c.withStart nowMs) nowMs inp with h3 | ⟨h3, _⟩
      · exact h3
      · rw [withStart_current] at h3
        exact absurd h3 hchange

/-- C17 (the latch `fanActive` is cleared only on `FanCycle` exit): for every
internal state and every tick, if `fanActive` is true before the tick and false
after it, then `current` was `FanCycle` before the tick and is `Cooldown` after
it; and a tick in mode `Off` or `Manual` leaves `fanActive` unchanged. -/
theorem fan_latch_cleared_only_on_exit (c : AutomationController) (nowMs : Nat) (inp : Inputs) :
    (c.fanActive_ = true → (c.update nowMs inp).2.fanActive_ = false →
      c.current_ = AutoState.FanCycle ∧ (c.update nowMs inp).2.current_ = AutoState.Cooldown) ∧
    (inp.mode ≠ Mode.Auto → (c.update nowMs inp).2.fanActive_ = c.fanActive_) := by
  rcases update_cases c nowMs inp with h | h | ⟨_, h⟩ | ⟨hm, h⟩
  · rw [h]
    exact ⟨fun hb ha => by simp [hb] at ha, fun _ => rfl⟩
  · rw [h]
    exact ⟨fun hb ha => by simp [hb] at ha, fun _ => rfl⟩
  · rw [h]
    exact ⟨fun hb ha => by simp [hb] at ha, fun _ => rfl⟩
  · rw [h]
    refine ⟨fun hb ha => ?_, fun hne => absurd hm hne⟩
    rcases withFanTrigger_cases (c.withStart nowMs) nowMs inp.liquidTempC with
      ⟨hfire, _, _⟩ | ⟨_, h2⟩
    · have := ((shouldStartFanCycle_iff _ _ _).mp hfire).2.2
      rw [withStart_fanActive, hb] at this
      simp at this
    · rw [h2] at ha ⊢
      rcases dispatch_fanActive (c.withStart nowMs) nowMs inp with h3 | ⟨h3, h4, _⟩
      · rw [h3, withStart_fanActive, hb] at ha
        simp at ha
      · rw [withStart_current] at h3
        exact ⟨h3, h4⟩

/-! ## Output range -/

/-- C16 (output duty range): for every configuration with
`0 ≤ idlePumpPWM ≤ 255`, every internal state and every tick, the returned
`pumpPWM` lies in `[0, 255]`; more precisely it is `0`, or `idlePumpPWM` with
label `IDLE`, or a value in `[50, 200]` with label `PUMP_CYCLE`. -/
theorem output_duty_range (c : AutomationController) (nowMs : Nat) (inp : Inputs)
    (hlo : 0 ≤ c.cfg_.idlePumpPWM) (hhi : c.cfg_.idlePumpPWM ≤ 255) :
    (0 ≤ (c.update nowMs inp).1.pumpPWM ∧ (c.update nowMs inp).1.pumpPWM ≤ 255) ∧
    ((c.update nowMs inp).1.pumpPWM = 0 ∨
      ((c.update nowMs inp).1.pumpPWM = c.cfg_.idlePumpPWM ∧
        (c.update nowMs inp).1.state = "IDLE") ∨
      ((50 ≤ (c.update nowMs inp).1.pumpPWM ∧ (c.update nowMs inp).1.pumpPWM ≤ 200) ∧
        (c.update nowMs inp).1.state = "PUMP_CYCLE")) := by
  have key : (c.update nowMs inp).1.pumpPWM = 0 ∨
      ((c.update nowMs inp).1.pumpPWM = c.cfg_.idlePumpPWM ∧
        (c.update nowMs inp).1.state = "IDLE") ∨
      ((50 ≤ (c.update nowMs inp).1.pumpPWM ∧ (c.update nowMs inp).1.pumpPWM ≤ 200) ∧
        (c.update nowMs inp).1.state = "PUMP_CYCLE") := by
    rcases update_cases c nowMs inp with h | h | ⟨_, h⟩ | ⟨_, h⟩
    · exact Or.inl (by rw [h])
    · exact Or.inl (by rw [h])
    · exact Or.inl (by rw [h])
    · rw [h]
      have := dispatch_duty ((c.withStart nowMs).withFanTrigger nowMs inp.liquidTempC) nowMs inp
      rw [withFanTrigger_cfg, withStart_cfg] at this
      exact this
  refine ⟨?_, key⟩
  rcases key with h | ⟨h, _⟩ | ⟨⟨h1, h2⟩, _⟩
  · rw [h]; decide
  · rw [h]; exact ⟨hlo, hhi⟩
  · omega

/-! ## Concrete runs -/

theorem idleRunning1000_eq : idleRunning1000 = idleSince 1000 1000 true := by
  simp [idleRunning1000, freshDefault, auto4Inputs, idleSince, update, isValidTemp,
    shouldStartFanCycle, handleIdle, sub64, U64]
  norm_num

theorem fanSince41000_eq :
    fanSince41000 =
      { cfg_ := {}, current_ := AutoState.FanCycle, stateStartMs_ := 41000,
        idleCycleStartMs_ := 1000, idlePumpRunning_ := true, fanActive_ := true } := by
  rw [fanSince41000, idleRunning1000_eq]
  simp [auto8Inputs, idleSince, update, isValidTemp, shouldStartFanCycle, handleFanCycle,
    computeCoolingTargetC, sub64, U64]
  norm_num

theorem fanSince41000_exit :
    fanSince41000.update 46000 auto4Inputs =
      ({ state := "FAN_CYCLE", fanOn := true, pumpPWM := 0, note := "Cooling target reached" },
       { cfg_ := {}, current_ := AutoState.Cooldown, stateStartMs_ := 46000,
         idleCycleStartMs_ := 1000, idlePumpRunning_ := true, fanActive_ := false }) := by
  rw [fanSince41000_eq]
  simp [auto4Inputs, update, isValidTemp, shouldStartFanCycle, handleFanCycle,
    computeCoolingTargetC, sub64, U64]
  norm_num

/-- Witness of C11: a plausible 12 °C in mode `Off` reports `SAFETY_OVERRIDE`
and leaves a controller that is in `Cooldown` since 1000 as it was. -/
theorem guards_read_only_witness :
    (cooldownSince1000.update 5000 hotOffInputs).1.state = "SAFETY_OVERRIDE" ∧
    (cooldownSince1000.update 5000 hotOffInputs).2.current_ = AutoState.Cooldown ∧
    (cooldownSince1000.update 5000 hotOffInputs).2.stateStartMs_ = 1000 := by
  have hl : (cooldownSince1000.update 5000 hotOffInputs).1.state = "SAFETY_OVERRIDE" := by
    rw [update_hot _ _ _ (by simp [isValidTemp, hotOffInputs]; norm_num)
      (by norm_num [hotOffInputs, cooldownSince1000])]
  have h := guards_read_only cooldownSince1000 5000 hotOffInputs (Or.inr hl)
  exact ⟨hl, h.1.1, h.1.2.1⟩

/-- Witness of C13: the tick on which the fan trigger moves `idleRunning1000`
from `Idle` to `FanCycle` sets `stateStartMs` to the tick time 41000. -/
theorem transition_resets_timer_witness :
    (idleRunning1000.update 41000 auto8Inputs).2.current_ ≠ idleRunning1000.current_ ∧
    (idleRunning1000.update 41000 auto8Inputs).2.stateStartMs_ = 41000 := by
  have hchange :
      (idleRunning1000.update 41000 auto8Inputs).2.current_ ≠ idleRunning1000.current_ := by
    have h := fanSince41000_eq
    rw [fanSince41000] at h
    rw [h, idleRunning1000_eq]
    simp [idleSince]
  exact ⟨hchange, transition_resets_timer idleRunning1000 41000 auto8Inputs hchange⟩

/-- Witness of C17: the tick on which `fanSince41000` reaches the cooling target
clears the latch, and that tick leaves `FanCycle` for `Cooldown`. -/
theorem fan_latch_cleared_only_on_exit_witness :
    (fanSince41000.fanActive_ = true ∧
      (fanSince41000.update 46000 auto4Inputs).2.fanActive_ = false) ∧
    fanSince41000.current_ = AutoState.FanCycle ∧
    (fanSince41000.update 46000 auto4Inputs).2.current_ = AutoState.Cooldown := by
  have hb : fanSince41000.fanActive_ = true := by rw [fanSince41000_eq]
  have ha : (fanSince41000.update 46000 auto4Inputs).2.fanActive_ = false := by
    rw [fanSince41000_exit]
  exact ⟨⟨hb, ha⟩, (fan_latch_cleared_only_on_exit fanSince41000 46000 auto4Inputs).1 hb ha⟩

/-- Witness of C16: with the default idle duty 204, the first tick of
`idleRunning1000` outputs a duty inside `[0, 255]`. -/
theorem output_duty_range_witness :
    (0 ≤ freshDefault.cfg_.idlePumpPWM ∧ freshDefault.cfg_.idlePumpPWM ≤ 255) ∧
    0 ≤ (freshDefault.update 1000 auto4Inputs).1.pumpPWM ∧
    (freshDefault.update 1000 auto4Inputs).1.pumpPWM ≤ 255 :=
  ⟨by decide, (output_duty_range freshDefault 1000 auto4Inputs (by decide) (by decide)).1⟩

/-- C12 (every transition clears the idle duty sub-state), evaluated where it
fails: `idleRunning1000` is in `Idle` with the duty cycle started at 1000 and
running; the `Auto` tick at 41000 with 8 °C moves it to `FanCycle`, and the
tick at 46000 with 4 °C moves it on to `Cooldown`; after both transitions
`idleCycleStartMs` is still 1000 and `idlePumpRunning` still true. -/
theorem fan_transitions_keep_idle_substate :
    idleRunning1000.current_ = AutoState.Idle ∧
    (idleRunning1000.update 41000 auto8Inputs).2.current_ = AutoState.FanCycle ∧
    (idleRunning1000.update 41000 auto8Inputs).2.idleCycleStartMs_ = 1000 ∧
    (idleRunning1000.update 41000 auto8Inputs).2.idlePumpRunning_ = true ∧
    (fanSince41000.update 46000 auto4Inputs).2.current_ = AutoState.Cooldown ∧
    (fanSince41000.update 46000 auto4Inputs).2.idleCycleStartMs_ = 1000 ∧
    (fanSince41000.update 46000 auto4Inputs).2.idlePumpRunning_ = true := by
  have h := fanSince41000_eq
  rw [fanSince41000] at h
  rw [h, fanSince41000_exit, idleRunning1000_eq]
  simp [idleSince]

/-! ## Timer wrap-around -/

theorem sub64_wrap (s d : Nat) (hd : d < U64) :
    sub64 ((s + d) % U64) s = d := by
  unfold sub64
  unfold U64 at *
  omega

/-- C14 (timer wrap tolerance): for a start timestamp `s ≠ 0` and a duration
`d < 2 ^ 64`, at the tick `now = (s + d) mod 2 ^ 64` the unsigned difference
`now - s` is `d`, also when `now < s` numerically, and every elapsed-time check
compares `d` with its threshold: the fan minimum delay, the idle maximum, the
idle run and rest phases, the pump-cycle and fan-cycle maxima and the cooldown.
In particular a controller in `Cooldown` since `s` stays in `Cooldown` at an
`Auto` tick without fan trigger iff `d < cooldownMs`. -/
theorem timer_wrap_tolerance (c : AutomationController) (s d : Nat) (inp : Inputs)
    (hs0 : s ≠ 0) (hd : d < U64) :
    sub64 ((s + d) % U64) s = d ∧
    (c.stateStartMs_ = s →
      (c.shouldStartFanCycle ((s + d) % U64) inp.liquidTempC = true ↔
        inp.liquidTempC > c.cfg_.targetTempC + c.cfg_.fanTriggerOffsetC ∧
          d > c.cfg_.fanMinDelayMs ∧ c.fanActive_ = false)) ∧
    (c.stateStartMs_ = s →
      ((c.handleIdle ((s + d) % U64) inp).1.state = "IDLE" ↔
        ¬ (inp.liquidTempC > c.cfg_.targetTempC ∨ d ≥ c.cfg_.idleMaxMs))) ∧
    (c.idleCycleStartMs_ = s → inp.liquidTempC ≤ c.cfg_.targetTempC →
      sub64 ((s + d) % U64) c.stateStartMs_ < c.cfg_.idleMaxMs →
      (c.handleIdle ((s + d) % U64) inp).2.idlePumpRunning_ =
        if c.idlePumpRunning_ then decide (d < c.cfg_.idlePumpRunMs)
        else decide (d ≥ c.cfg_.idlePumpRestMs)) ∧
    (c.stateStartMs_ = s →
      ((c.handlePumpCycle ((s + d) % U64) inp).1.state = "COOLDOWN" ↔
        inp.liquidTempC ≤ c.computeCoolingTargetC inp.liquidTempC inp.externalTempC ∨
          d ≥ c.cfg_.pumpCycleMaxMs)) ∧
    (c.stateStartMs_ = s → c.current_ = AutoState.FanCycle →
      ((c.handleFanCycle ((s + d) % U64) inp).2.current_ = AutoState.Cooldown ↔
        inp.liquidTempC ≤ c.computeCoolingTargetC inp.liquidTempC inp.externalTempC ∨
          d ≥ c.cfg_.fanCycleMaxMs)) ∧
    (c.stateStartMs_ = s → c.current_ = AutoState.Cooldown →
      ((c.handleCooldown ((s + d) % U64) inp).2.current_ = AutoState.Idle ↔
        d ≥ c.cfg_.cooldownMs)) ∧
    (c.stateStartMs_ = s → c.current_ = AutoState.Cooldown →
      isValidTemp inp.liquidTempC = true → ¬ inp.liquidTempC > c.cfg_.safetyTempC →
      inp.mode = Mode.Auto → c.shouldStartFanCycle ((s + d) % U64) inp.liquidTempC = false →
      ((c.update ((s + d) % U64) inp).2.current_ = AutoState.Cooldown ↔
        d < c.cfg_.cooldownMs)) := by
  have e := sub64_wrap s d hd
  refine ⟨e, ?_, ?_, ?_, ?_, ?_, ?_, ?_⟩
  · intro h
    rw [shouldStartFanCycle_iff, h, e]
  · intro h
    by_cases hp : (decide (inp.liquidTempC > c.cfg_.targetTempC) ||
        decide (sub64 ((s + d) % U64) c.stateStartMs_ ≥ c.cfg_.idleMaxMs)) = true
    · have hp2 : inp.liquidTempC > c.cfg_.targetTempC ∨ d ≥ c.cfg_.idleMaxMs := by
        rw [h, e] at hp
        simpa using hp
      have hl : (c.handleIdle ((s + d) % U64) inp).1.state ≠ "IDLE" := by
        unfold handleIdle
        dsimp only
        rw [if_pos hp]
        rcases handlePumpCycle_label
          { c with
            current_ := AutoState.PumpCycle
            stateStartMs_ := (s + d) % U64
            idleCycleStartMs_ := 0
            idlePumpRunning_ := false } ((s + d) % U64) inp with h2 | h2 <;> rw [h2] <;> simp
      exact ⟨fun h3 => absurd h3 hl, fun h3 => absurd hp2 h3⟩
    · have hp2 : ¬ (inp.liquidTempC > c.cfg_.targetTempC ∨ d ≥ c.cfg_.idleMaxMs) := by
        rw [h, e] at hp
        simpa using hp
      have hl : (c.handleIdle ((s + d) % U64) inp).1.state = "IDLE" := by
        unfold handleIdle
        dsimp only
        rw [if_neg hp]
      exact ⟨fun _ => hp2, fun _ => hl⟩
  · intro h hcool hmax
    have h0 : c.idleCycleStartMs_ ≠ 0 := by rw [h]; exact hs0
    have e2 : sub64 ((s + d) % U64) c.idleCycleStartMs_ = d := by rw [h, e]
    by_cases hr : c.idlePumpRunning_ = true
    · by_cases hel : sub64 ((s + d) % U64) c.idleCycleStartMs_ < c.cfg_.idlePumpRunMs
      · rw [handleIdle_run c _ inp hcool hmax h0 hr hel]
        rw [e2] at hel
        simp [hr, hel]
      · rw [handleIdle_run_end c _ inp hcool hmax h0 hr (by omega)]
        rw [e2] at hel
        simp [hr, hel]
    · have hr2 : c.idlePumpRunning_ = false := by simpa using hr
      by_cases hel : sub64 ((s + d) % U64) c.idleCycleStartMs_ < c.cfg_.idlePumpRestMs
      · rw [handleIdle_rest c _ inp hcool hmax h0 hr2 hel]
        rw [e2] at hel
        simp [hr2, hel]
      · rw [handleIdle_rest_end c _ inp hcool hmax h0 hr2 (by omega)]
        rw [e2] at hel
        have : c.cfg_.idlePumpRestMs ≤ d := by omega
        simp [hr2, this]
  · intro h
    unfold handlePumpCycle
    dsimp only
    rw [h, e]
    split
    · next hp => simpa using hp
    · next hp => simpa using hp
  · intro h hc
    unfold handleFanCycle
    dsimp only
    rw [h, e]
    split
    · next hp => simpa using hp
    · next hp => simpa [hc] using hp
  · intro h hc
    unfold handleCooldown
    dsimp only
    rw [h, e]
    split
    · next hp => simpa using hp
    · next hp => simpa [hc] using hp
  · intro h hc hv hsafe hm hnf
    have hws : c.withStart ((s + d) % U64) = c := by
      unfold withStart
      rw [if_neg (by rw [h]; exact hs0)]
    rw [update_auto c _ inp hv hsafe hm, hws, withFanTrigger_of_not _ _ _ hnf]
    unfold dispatch
    rw [hc]
    dsimp only
    unfold handleCooldown
    dsimp only
    rw [h, e]
    split
    · next hp =>
      constructor
      · intro h2
        simp at h2
      · intro h2
        omega
    · next hp =>
      constructor
      · intro _
        omega
      · intro _
        exact hc

/-- Witness of C14: `Cooldown` entered at `2 ^ 64 - 1000`; the tick at
`now = 4000` is 5000 ms later although `4000 < 2 ^ 64 - 1000`, and the
controller stays in `Cooldown` since 5000 is below the cooldown of 120000. -/
theorem timer_wrap_tolerance_witness :
    (18446744073709550616 ≠ 0 ∧ 18446744073709550616 < U64 ∧ 5000 < U64 ∧
      (18446744073709550616 + 5000) % U64 = 4000) ∧
    sub64 4000 18446744073709550616 = 5000 ∧
    (cooldownNearWrap.update 4000 auto4Inputs).2.current_ = AutoState.Cooldown := by
  have h := timer_wrap_tolerance cooldownNearWrap 18446744073709550616 5000 auto4Inputs
    (by decide) (by decide)
  have hnow : (18446744073709550616 + 5000) % U64 = 4000 := by decide
  rw [hnow] at h
  refine ⟨⟨by decide, by decide, by decide, hnow⟩, h.1, ?_⟩
  refine (h.2.2.2.2.2.2.2 rfl rfl ?_ ?_ rfl ?_).mpr ?_
  · simp [isValidTemp, auto4Inputs]
    norm_num
  · norm_num [auto4Inputs, cooldownNearWrap]
  · simp [shouldStartFanCycle, auto4Inputs, cooldownNearWrap]
    norm_num
  · simp [cooldownNearWrap]

/-! ## Fan-trigger rule -/

theorem specTrigger_eq (c : AutomationController) (nowMs : Nat) (t : ℚ) :
    specTrigger c nowMs t = (c.withStart nowMs).shouldStartFanCycle nowMs t := by
  unfold specTrigger shouldStartFanCycle withStart
  split <;> rfl

theorem withStart_then_fan (c : AutomationController) (nowMs : Nat) :
    ({ c.withStart nowMs with
        current_ := AutoState.FanCycle, stateStartMs_ := nowMs, fanActive_ := true } :
      AutomationController) =
    { c with current_ := AutoState.FanCycle, stateStartMs_ := nowMs, fanActive_ := true } := by
  unfold withStart
  split <;> rfl

/-- C20 (fan-trigger rule): for an `Auto` tick that passes the validity and
safety guards, let `trigger` be `specTrigger`: the reading is above
`targetTempC + fanTriggerOffsetC`, `now - s > fanMinDelayMs` for `s` the stored
`stateStartMs` (or `now` when the stored value is 0), and `fanActive` is clear.
The tick reports `FAN_CYCLE` iff `current` was `FanCycle` before the tick or
`trigger` holds, and then `fanOn = true` and `pumpPWM = 0`; when `trigger`
holds outside `FanCycle`, the tick is the `FanCycle` handler run on the state
with `current = FanCycle`, `stateStartMs = now` and `fanActive = true`. -/
theorem fan_trigger_rule (c : AutomationController) (nowMs : Nat) (inp : Inputs)
    (hlo : -100 < inp.liquidTempC) (hhi : inp.liquidTempC < 125)
    (hsafe : inp.liquidTempC ≤ c.cfg_.safetyTempC) (hmode : inp.mode = Mode.Auto) :
    ((c.update nowMs inp).1.state = "FAN_CYCLE" ↔
      c.current_ = AutoState.FanCycle ∨ specTrigger c nowMs inp.liquidTempC = true) ∧
    ((c.update nowMs inp).1.state = "FAN_CYCLE" →
      (c.update nowMs inp).1.fanOn = true ∧ (c.update nowMs inp).1.pumpPWM = 0) ∧
    (specTrigger c nowMs inp.liquidTempC = true → c.current_ ≠ AutoState.FanCycle →
      c.update nowMs inp =
        handleFanCycle
          { c with current_ := AutoState.FanCycle, stateStartMs_ := nowMs, fanActive_ := true }
          nowMs inp) := by
  have hv : isValidTemp inp.liquidTempC = true := (isValidTemp_iff _).mpr ⟨hlo, hhi⟩
  have hup := update_auto c nowMs inp hv (not_lt.mpr hsafe) hmode
  have fanOut : ∀ c' : AutomationController,
      (c'.handleFanCycle nowMs inp).1.fanOn = true ∧
        (c'.handleFanCycle nowMs inp).1.pumpPWM = 0 := by
    intro c'
    rcases handleFanCycle_cases c' nowMs inp with ⟨note, h⟩ | h <;> rw [h] <;> exact ⟨rfl, rfl⟩
  rw [hup, specTrigger_eq]
  rcases withFanTrigger_cases (c.withStart nowMs) nowMs inp.liquidTempC with
    ⟨hfire, hne, h2⟩ | ⟨hno, h2⟩
  · rw [h2, withStart_then_fan]
    have hd : ∀ c' : AutomationController, c'.current_ = AutoState.FanCycle →
        c'.dispatch nowMs inp = c'.handleFanCycle nowMs inp := by
      intro c' hc
      unfold dispatch
      rw [hc]
    rw [hd _ rfl]
    exact ⟨⟨fun _ => Or.inr hfire, fun _ => handleFanCycle_state _ nowMs inp⟩,
      fun _ => fanOut _, fun _ _ => rfl⟩
  · rw [h2]
    rw [withStart_current] at hno
    by_cases hc : c.current_ = AutoState.FanCycle
    · have hd : (c.withStart nowMs).dispatch nowMs inp =
          (c.withStart nowMs).handleFanCycle nowMs inp := by
        unfold dispatch
        rw [withStart_current, hc]
      rw [hd]
      exact ⟨⟨fun _ => Or.inl hc, fun _ => handleFanCycle_state _ nowMs inp⟩,
        fun _ => fanOut _, fun _ hne => absurd hc hne⟩
    · have hnf : (c.withStart nowMs).shouldStartFanCycle nowMs inp.liquidTempC = false := by
        rcases hno with h | h
        · exact h
        · exact absurd h hc
      have hl := (dispatch_current (c.withStart nowMs) nowMs inp
        (by rw [withStart_current]; exact hc)).2
      refine ⟨⟨fun h => absurd h hl, fun h => ?_⟩, fun h => absurd h hl, fun h => ?_⟩
      · rcases h with h | h
        · exact absurd h hc
        · rw [hnf] at h
          simp at h
      · rw [hnf] at h
        simp at h

/-- Witness of C20: `Idle` since timestamp 1, tick at 40000 with 8 °C: the
trigger holds and the tick reports `FAN_CYCLE` with the fan on and the pump off. -/
theorem fan_trigger_rule_witness :
    (-100 < auto8Inputs.liquidTempC ∧ auto8Inputs.liquidTempC < 125 ∧
      auto8Inputs.liquidTempC ≤ (idleSince 1 1 true).cfg_.safetyTempC ∧
      auto8Inputs.mode = Mode.Auto) ∧
    specTrigger (idleSince 1 1 true) 40000 auto8Inputs.liquidTempC = true ∧
    ((idleSince 1 1 true).update 40000 auto8Inputs).1.state = "FAN_CYCLE" ∧
    ((idleSince 1 1 true).update 40000 auto8Inputs).1.fanOn = true ∧
    ((idleSince 1 1 true).update 40000 auto8Inputs).1.pumpPWM = 0 := by
  have hlo : -100 < auto8Inputs.liquidTempC := by norm_num [auto8Inputs]
  have hhi : auto8Inputs.liquidTempC < 125 := by norm_num [auto8Inputs]
  have hs : auto8Inputs.liquidTempC ≤ (idleSince 1 1 true).cfg_.safetyTempC := by
    norm_num [auto8Inputs, idleSince]
  have ht : specTrigger (idleSince 1 1 true) 40000 auto8Inputs.liquidTempC = true := by
    simp [specTrigger, idleSince, auto8Inputs, sub64, U64]
    norm_num
  have h := fan_trigger_rule (idleSince 1 1 true) 40000 auto8Inputs hlo hhi hs rfl
  have hl := h.1.mpr (Or.inr ht)
  exact ⟨⟨hlo, hhi, hs, rfl⟩, ht, hl, h.2.1 hl⟩

/-! ## Determinism -/

theorem dispatch_cfg (c : AutomationController) (nowMs : Nat) (inp : Inputs) :
    (c.dispatch nowMs inp).2.cfg_ = c.cfg_ := by
  unfold dispatch
  split
  · rcases handleIdle_cases c nowMs inp with h | ⟨start, running, h⟩
    · rw [h]
      rcases handlePumpCycle_cases
        { c with
          current_ := AutoState.PumpCycle
          stateStartMs_ := nowMs
          idleCycleStartMs_ := 0
          idlePumpRunning_ := false } nowMs inp with ⟨note, h2⟩ | h2 <;> rw [h2]
    · rw [h]
  · rcases handlePumpCycle_cases c nowMs inp with ⟨note, h⟩ | h <;> rw [h]
  · rcases handleFanCycle_cases c nowMs inp with ⟨note, h⟩ | h <;> rw [h]
  · rcases handleCooldown_cases c nowMs inp with h | h <;> rw [h]

theorem update_cfg (c : AutomationController) (nowMs : Nat) (inp : Inputs) :
    (c.update nowMs inp).2.cfg_ = c.cfg_ := by
  rcases update_cases c nowMs inp with h | h | ⟨_, h⟩ | ⟨_, h⟩
  · rw [h]
  · rw [h]
  · rw [h]
  · rw [h, dispatch_cfg, withFanTrigger_cfg, withStart_cfg]

theorem stateAfter_cfg (c : AutomationController) (sched : Nat → Nat × Inputs) (k : Nat) :
    (stateAfter c sched k).cfg_ = c.cfg_ := by
  induction k with
  | zero => rfl
  | succ n ih =>
    show ((stateAfter c sched n).update (sched n).1 (sched n).2).2.cfg_ = c.cfg_
    rw [update_cfg, ih]

theorem stateAfter_congr (c : AutomationController) (sched₁ sched₂ : Nat → Nat × Inputs)
    (k : Nat) (h : ∀ j, j < k → sched₁ j = sched₂ j) :
    stateAfter c sched₁ k = stateAfter c sched₂ k := by
  induction k with
  | zero => rfl
  | succ n ih =>
    show ((stateAfter c sched₁ n).update (sched₁ n).1 (sched₁ n).2).2 =
      ((stateAfter c sched₂ n).update (sched₂ n).1 (sched₂ n).2).2
    rw [ih (fun j hj => h j (by omega)), h n (by omega)]

/-- C18 (determinism): two controllers constructed with the same configuration
and fed sequences of `(now, inputs)` that agree up to step `k` produce the same
outputs (duty, fan, label and note) at step `k` and are in the same internal
state after it; the configuration they were constructed with is still in
place. -/
theorem update_deterministic (cfg : Config) (c₁ c₂ : AutomationController)
    (sched₁ sched₂ : Nat → Nat × Inputs) (k : Nat)
    (h₁ : c₁ = { cfg_ := cfg }) (h₂ : c₂ = { cfg_ := cfg })
    (hsame : ∀ j, j ≤ k → sched₁ j = sched₂ j) :
    outputAt c₁ sched₁ k = outputAt c₂ sched₂ k ∧
    stateAfter c₁ sched₁ (k + 1) = stateAfter c₂ sched₂ (k + 1) ∧
    (stateAfter c₁ sched₁ (k + 1)).cfg_ = cfg := by
  subst h₁ h₂
  have hst := stateAfter_congr { cfg_ := cfg } sched₁ sched₂ k (fun j hj => hsame j (by omega))
  refine ⟨?_, ?_, ?_⟩
  · unfold outputAt
    rw [hst, hsame k (le_refl k)]
  · exact stateAfter_congr _ sched₁ sched₂ (k + 1) (fun j hj => hsame j (by omega))
  · rw [stateAfter_cfg]

/-- Witness of C18: two default controllers on the 5000 ms cadence at 4 °C agree
at tick number 9. -/
theorem update_deterministic_witness :
    outputAt freshDefault (cadence 5000 steady4 steady18) 9 =
      outputAt { cfg_ := {} } (cadence 5000 steady4 steady18) 9 ∧
    stateAfter freshDefault (cadence 5000 steady4 steady18) 10 =
      stateAfter { cfg_ := {} } (cadence 5000 steady4 steady18) 10 :=
  ⟨(update_deterministic {} freshDefault { cfg_ := {} } _ _ 9 rfl rfl (fun _ _ => rfl)).1,
   (update_deterministic {} freshDefault { cfg_ := {} } _ _ 9 rfl rfl (fun _ _ => rfl)).2.1⟩

/-! ## Steps of the cycle machine -/

theorem update_no_trigger (c : AutomationController) (nowMs : Nat) (inp : Inputs)
    (hlo : -100 < inp.liquidTempC) (hhi : inp.liquidTempC < 125)
    (hsafe : inp.liquidTempC ≤ c.cfg_.safetyTempC) (hmode : inp.mode = Mode.Auto)
    (hs0 : c.stateStartMs_ ≠ 0)
    (hnf : c.shouldStartFanCycle nowMs inp.liquidTempC = false) :
    c.update nowMs inp = c.dispatch nowMs inp := by
  have hws : c.withStart nowMs = c := by
    unfold withStart
    rw [if_neg hs0]
  rw [update_auto c nowMs inp ((isValidTemp_iff _).mpr ⟨hlo, hhi⟩) (not_lt.mpr hsafe) hmode,
    hws, withFanTrigger_of_not _ _ _ hnf]

/-- C23 (PumpCycle step): for a controller in `PumpCycle` with non-zero
`stateStartMs` and an `Auto` tick that passes the guards without a fan trigger:
if `liquidTempC ≤ coolingTarget` or `now - stateStartMs ≥ pumpCycleMaxMs`, then
after the tick `current = Cooldown` with `stateStartMs = now` and the tick
reports `COOLDOWN` with the pump and the fan off; otherwise `current` stays
`PumpCycle`, `stateStartMs` is unchanged and the tick reports `PUMP_CYCLE` with
the fan on and `pumpPWM = computePumpPWM(liquidTempC, coolingTarget,
externalTempC)`. -/
theorem pump_cycle_step (c : AutomationController) (nowMs : Nat) (inp : Inputs)
    (hcur : c.current_ = AutoState.PumpCycle) (hs0 : c.stateStartMs_ ≠ 0)
    (hlo : -100 < inp.liquidTempC) (hhi : inp.liquidTempC < 125)
    (hsafe : inp.liquidTempC ≤ c.cfg_.safetyTempC) (hmode : inp.mode = Mode.Auto)
    (hnf : c.shouldStartFanCycle nowMs inp.liquidTempC = false) :
    ((inp.liquidTempC ≤ c.computeCoolingTargetC inp.liquidTempC inp.externalTempC ∨
        sub64 nowMs c.stateStartMs_ ≥ c.cfg_.pumpCycleMaxMs) →
      (c.update nowMs inp).2.current_ = AutoState.Cooldown ∧
      (c.update nowMs inp).2.stateStartMs_ = nowMs ∧
      (c.update nowMs inp).1.state = "COOLDOWN" ∧
      (c.update nowMs inp).1.pumpPWM = 0 ∧
      (c.update nowMs inp).1.fanOn = false) ∧
    (¬ (inp.liquidTempC ≤ c.computeCoolingTargetC inp.liquidTempC inp.externalTempC ∨
        sub64 nowMs c.stateStartMs_ ≥ c.cfg_.pumpCycleMaxMs) →
      (c.update nowMs inp).2.current_ = AutoState.PumpCycle ∧
      (c.update nowMs inp).2.stateStartMs_ = c.stateStartMs_ ∧
      (c.update nowMs inp).1.state = "PUMP_CYCLE" ∧
      (c.update nowMs inp).1.fanOn = true ∧
      (c.update nowMs inp).1.pumpPWM =
        c.computePumpPWM inp.liquidTempC
          (c.computeCoolingTargetC inp.liquidTempC inp.externalTempC) inp.externalTempC) := by
  rw [update_no_trigger c nowMs inp hlo hhi hsafe hmode hs0 hnf]
  have hd : c.dispatch nowMs inp = c.handlePumpCycle nowMs inp := by
    unfold dispatch
    rw [hcur]
  rw [hd]
  unfold handlePumpCycle
  dsimp only
  constructor
  · intro h
    rw [if_pos (by simpa using h)]
    exact ⟨rfl, rfl, rfl, rfl, rfl⟩
  · intro h
    rw [if_neg (by simpa using h)]
    exact ⟨hcur, rfl, rfl, rfl, rfl⟩

/-- C24 (FanCycle step): for a controller in `FanCycle` with non-zero
`stateStartMs` and an `Auto` tick that passes the guards, the tick reports
`FAN_CYCLE` with the fan on and the pump off; after the tick `current =
Cooldown`, `stateStartMs = now` and `fanActive = false` if
`liquidTempC ≤ coolingTarget` or `now - stateStartMs ≥ fanCycleMaxMs`, and
otherwise `current`, `stateStartMs` and `fanActive` are unchanged. -/
theorem fan_cycle_step (c : AutomationController) (nowMs : Nat) (inp : Inputs)
    (hcur : c.current_ = AutoState.FanCycle) (hs0 : c.stateStartMs_ ≠ 0)
    (hlo : -100 < inp.liquidTempC) (hhi : inp.liquidTempC < 125)
    (hsafe : inp.liquidTempC ≤ c.cfg_.safetyTempC) (hmode : inp.mode = Mode.Auto) :
    ((c.update nowMs inp).1.state = "FAN_CYCLE" ∧
      (c.update nowMs inp).1.fanOn = true ∧
      (c.update nowMs inp).1.pumpPWM = 0) ∧
    ((inp.liquidTempC ≤ c.computeCoolingTargetC inp.liquidTempC inp.externalTempC ∨
        sub64 nowMs c.stateStartMs_ ≥ c.cfg_.fanCycleMaxMs) →
      (c.update nowMs inp).2.current_ = AutoState.Cooldown ∧
      (c.update nowMs inp).2.stateStartMs_ = nowMs ∧
      (c.update nowMs inp).2.fanActive_ = false) ∧
    (¬ (inp.liquidTempC ≤ c.computeCoolingTargetC inp.liquidTempC inp.externalTempC ∨
        sub64 nowMs c.stateStartMs_ ≥ c.cfg_.fanCycleMaxMs) →
      (c.update nowMs inp).2.current_ = c.current_ ∧
      (c.update nowMs inp).2.stateStartMs_ = c.stateStartMs_ ∧
      (c.update nowMs inp).2.fanActive_ = c.fanActive_) := by
  have hws : c.withStart nowMs = c := by
    unfold withStart
    rw [if_neg hs0]
  have hft : c.withFanTrigger nowMs inp.liquidTempC = c := by
    simp [withFanTrigger, hcur]
  have hd : c.dispatch nowMs inp = c.handleFanCycle nowMs inp := by
    unfold dispatch
    rw [hcur]
  rw [update_auto c nowMs inp ((isValidTemp_iff _).mpr ⟨hlo, hhi⟩) (not_lt.mpr hsafe) hmode,
    hws, hft, hd]
  unfold handleFanCycle
  dsimp only
  refine ⟨?_, ?_, ?_⟩
  · split <;> exact ⟨rfl, rfl, rfl⟩
  · intro h
    rw [if_pos (by simpa using h)]
    exact ⟨rfl, rfl, rfl⟩
  · intro h
    rw [if_neg (by simpa using h)]
    exact ⟨rfl, rfl, rfl⟩

/-- C25 (Cooldown exit): for a controller in `Cooldown` with non-zero
`stateStartMs` and an `Auto` tick that passes the guards without a fan trigger,
the tick reports `COOLDOWN` with the pump and the fan off; after the tick
`current = Idle` iff `now - stateStartMs ≥ cooldownMs`, in which case
`stateStartMs = now`, `idleCycleStartMs = 0` and `idlePumpRunning = false`;
otherwise the internal state is unchanged. -/
theorem cooldown_exit (c : AutomationController) (nowMs : Nat) (inp : Inputs)
    (hcur : c.current_ = AutoState.Cooldown) (hs0 : c.stateStartMs_ ≠ 0)
    (hlo : -100 < inp.liquidTempC) (hhi : inp.liquidTempC < 125)
    (hsafe : inp.liquidTempC ≤ c.cfg_.safetyTempC) (hmode : inp.mode = Mode.Auto)
    (hnf : c.shouldStartFanCycle nowMs inp.liquidTempC = false) :
    ((c.update nowMs inp).1.state = "COOLDOWN" ∧
      (c.update nowMs inp).1.pumpPWM = 0 ∧
      (c.update nowMs inp).1.fanOn = false) ∧
    ((c.update nowMs inp).2.current_ = AutoState.Idle ↔
      sub64 nowMs c.stateStartMs_ ≥ c.cfg_.cooldownMs) ∧
    (sub64 nowMs c.stateStartMs_ ≥ c.cfg_.cooldownMs →
      (c.update nowMs inp).2.stateStartMs_ = nowMs ∧
      (c.update nowMs inp).2.idleCycleStartMs_ = 0 ∧
      (c.update nowMs inp).2.idlePumpRunning_ = false) ∧
    (¬ sub64 nowMs c.stateStartMs_ ≥ c.cfg_.cooldownMs → (c.update nowMs inp).2 = c) := by
  rw [update_no_trigger c nowMs inp hlo hhi hsafe hmode hs0 hnf]
  have hd : c.dispatch nowMs inp = c.handleCooldown nowMs inp := by
    unfold dispatch
    rw [hcur]
  rw [hd]
  unfold handleCooldown
  dsimp only
  by_cases h : sub64 nowMs c.stateStartMs_ ≥ c.cfg_.cooldownMs
  · rw [if_pos h]
    exact ⟨⟨rfl, rfl, rfl⟩, ⟨fun _ => h, fun _ => rfl⟩, fun _ => ⟨rfl, rfl, rfl⟩,
      fun hn => absurd h hn⟩
  · rw [if_neg h]
    refine ⟨⟨rfl, rfl, rfl⟩, ⟨fun hi => ?_, fun hp => absurd hp h⟩, fun hp => absurd hp h,
      fun _ => rfl⟩
    rw [hcur] at hi
    simp at hi

theorem pumpSince1000_eq :
    pumpSince1000 =
      { cfg_ := {}, current_ := AutoState.PumpCycle, stateStartMs_ := 1000 } := by
  simp [pumpSince1000, freshDefault, auto8Inputs, update, isValidTemp, shouldStartFanCycle,
    handleIdle, handlePumpCycle, computeCoolingTargetC, sub64, U64]
  norm_num

/-- Witness of C23: `PumpCycle` since 1000, tick at 6000 with 8 °C: above the
cooling target of 4 °C and 5 s into the cycle, so the pump cycle goes on. -/
theorem pump_cycle_step_witness :
    (pumpSince1000.update 6000 auto8Inputs).2.current_ = AutoState.PumpCycle ∧
    (pumpSince1000.update 6000 auto8Inputs).2.stateStartMs_ = 1000 ∧
    (pumpSince1000.update 6000 auto8Inputs).1.state = "PUMP_CYCLE" ∧
    (pumpSince1000.update 6000 auto8Inputs).1.fanOn = true := by
  have hcur : pumpSince1000.current_ = AutoState.PumpCycle := by rw [pumpSince1000_eq]
  have hs0 : pumpSince1000.stateStartMs_ ≠ 0 := by rw [pumpSince1000_eq]; decide
  have hst : pumpSince1000.stateStartMs_ = 1000 := by rw [pumpSince1000_eq]
  have hnf : pumpSince1000.shouldStartFanCycle 6000 auto8Inputs.liquidTempC = false := by
    rw [pumpSince1000_eq]
    simp [shouldStartFanCycle, auto8Inputs, sub64, U64]
  have hgo : ¬ (auto8Inputs.liquidTempC ≤
        pumpSince1000.computeCoolingTargetC auto8Inputs.liquidTempC auto8Inputs.externalTempC ∨
      sub64 6000 pumpSince1000.stateStartMs_ ≥ pumpSince1000.cfg_.pumpCycleMaxMs) := by
    rw [pumpSince1000_eq]
    simp [computeCoolingTargetC, auto8Inputs, sub64, U64]
    norm_num
  have h := (pump_cycle_step pumpSince1000 6000 auto8Inputs hcur hs0
    (by norm_num [auto8Inputs]) (by norm_num [auto8Inputs])
    (by rw [pumpSince1000_eq]; norm_num [auto8Inputs]) rfl hnf).2 hgo
  exact ⟨h.1, h.2.1.trans hst, h.2.2.1, h.2.2.2.1⟩

/-- Witness of C24: `FanCycle` since 41000, tick at 46000 with 4 °C: the cooling
target of 4 °C is reached, the tick reports `FAN_CYCLE` and the controller
moves to `Cooldown` with the latch cleared. -/
theorem fan_cycle_step_witness :
    (fanSince41000.update 46000 auto4Inputs).1.state = "FAN_CYCLE" ∧
    (fanSince41000.update 46000 auto4Inputs).2.current_ = AutoState.Cooldown ∧
    (fanSince41000.update 46000 auto4Inputs).2.stateStartMs_ = 46000 ∧
    (fanSince41000.update 46000 auto4Inputs).2.fanActive_ = false := by
  have hcur : fanSince41000.current_ = AutoState.FanCycle := by rw [fanSince41000_eq]
  have hs0 : fanSince41000.stateStartMs_ ≠ 0 := by rw [fanSince41000_eq]; decide
  have hend : auto4Inputs.liquidTempC ≤
        fanSince41000.computeCoolingTargetC auto4Inputs.liquidTempC auto4Inputs.externalTempC ∨
      sub64 46000 fanSince41000.stateStartMs_ ≥ fanSince41000.cfg_.fanCycleMaxMs := by
    left
    rw [fanSince41000_eq]
    norm_num [computeCoolingTargetC, auto4Inputs]
  have h := fan_cycle_step fanSince41000 46000 auto4Inputs hcur hs0
    (by norm_num [auto4Inputs]) (by norm_num [auto4Inputs])
    (by rw [fanSince41000_eq]; norm_num [auto4Inputs]) rfl
  exact ⟨h.1.1, h.2.1 hend⟩

/-- Witness of C25: `Cooldown` since 1000, tick at 121000 with 4 °C: the
cooldown of 120000 ms has elapsed, the tick still reports `COOLDOWN` and the
controller is back in `Idle` with a fresh timer. -/
theorem cooldown_exit_witness :
    (cooldownSince1000.update 121000 auto4Inputs).1.state = "COOLDOWN" ∧
    (cooldownSince1000.update 121000 auto4Inputs).2.current_ = AutoState.Idle ∧
    (cooldownSince1000.update 121000 auto4Inputs).2.stateStartMs_ = 121000 := by
  have hnf : cooldownSince1000.shouldStartFanCycle 121000 auto4Inputs.liquidTempC = false := by
    simp [shouldStartFanCycle, auto4Inputs, cooldownSince1000]
    norm_num
  have hel : sub64 121000 cooldownSince1000.stateStartMs_ ≥ cooldownSince1000.cfg_.cooldownMs := by
    simp [cooldownSince1000, sub64, U64]
  have h := cooldown_exit cooldownSince1000 121000 auto4Inputs rfl (by decide)
    (by norm_num [auto4Inputs]) (by norm_num [auto4Inputs])
    (by norm_num [auto4Inputs, cooldownSince1000]) rfl hnf
  exact ⟨h.1.1, h.2.1.mpr hel, (h.2.2.1 hel).1⟩

/-! ## Leaving Idle -/

theorem withStart_start (c : AutomationController) (nowMs : Nat) :
    (c.withStart nowMs).stateStartMs_ = if c.stateStartMs_ = 0 then nowMs else c.stateStartMs_ := by
  unfold withStart
  split <;> simp [*]

theorem withStart_then_pump (c : AutomationController) (nowMs : Nat) :
    ({ c.withStart nowMs with
        current_ := AutoState.PumpCycle
        stateStartMs_ := nowMs
        idleCycleStartMs_ := 0
        idlePumpRunning_ := false } : AutomationController) =
    { c with
      current_ := AutoState.PumpCycle
      stateStartMs_ := nowMs
      idleCycleStartMs_ := 0
      idlePumpRunning_ := false } := by
  unfold withStart
  split <;> rfl

theorem update_idle (c : AutomationController) (nowMs : Nat) (inp : Inputs)
    (hcur : c.current_ = AutoState.Idle)
    (hlo : -100 < inp.liquidTempC) (hhi : inp.liquidTempC < 125)
    (hsafe : inp.liquidTempC ≤ c.cfg_.safetyTempC) (hmode : inp.mode = Mode.Auto)
    (hnf : specTrigger c nowMs inp.liquidTempC = false) :
    c.update nowMs inp = (c.withStart nowMs).handleIdle nowMs inp := by
  rw [specTrigger_eq] at hnf
  rw [update_auto c nowMs inp ((isValidTemp_iff _).mpr ⟨hlo, hhi⟩) (not_lt.mpr hsafe) hmode,
    withFanTrigger_of_not _ _ _ hnf]
  unfold dispatch
  rw [withStart_current, hcur]

theorem handleIdle_leave (c : AutomationController) (nowMs : Nat) (inp : Inputs)
    (h : inp.liquidTempC > c.cfg_.targetTempC ∨ sub64 nowMs c.stateStartMs_ ≥ c.cfg_.idleMaxMs) :
    c.handleIdle nowMs inp =
      handlePumpCycle
        { c with
          current_ := AutoState.PumpCycle
          stateStartMs_ := nowMs
          idleCycleStartMs_ := 0
          idlePumpRunning_ := false } nowMs inp := by
  unfold handleIdle
  dsimp only
  rw [if_pos (by simpa using h)]

theorem handleIdle_stay (c : AutomationController) (nowMs : Nat) (inp : Inputs)
    (h : ¬ (inp.liquidTempC > c.cfg_.targetTempC ∨
      sub64 nowMs c.stateStartMs_ ≥ c.cfg_.idleMaxMs)) :
    (c.handleIdle nowMs inp).1.state = "IDLE" ∧
      (c.handleIdle nowMs inp).2.current_ = c.current_ := by
  rcases handleIdle_cases c nowMs inp with h2 | ⟨start, running, h2⟩
  · exfalso
    have h3 : (c.handleIdle nowMs inp).1.state = "IDLE" := by
      unfold handleIdle
      dsimp only
      rw [if_neg (by simpa using h)]
    rw [h2] at h3
    rcases handlePumpCycle_label
      { c with
        current_ := AutoState.PumpCycle
        stateStartMs_ := nowMs
        idleCycleStartMs_ := 0
        idlePumpRunning_ := false } nowMs inp with h4 | h4 <;> rw [h4] at h3 <;> simp at h3
  · rw [h2]
    exact ⟨rfl, rfl⟩

/-- C22 (same-tick re-dispatch from Idle): for a controller in `Idle` and an
`Auto` tick that passes the guards without a fan trigger, so that the Idle
handler runs: if `liquidTempC > targetTempC` or `now - stateStartMs ≥ idleMaxMs`
(with the start the handler sees: the stored one, or `now` when that is 0), the
outputs and the resulting state are those of the PumpCycle handler run at the
same `now` on the state with `current = PumpCycle`, `stateStartMs = now`,
`idleCycleStartMs = 0`, `idlePumpRunning = false` and `fanActive` unchanged;
otherwise the tick reports `IDLE` and `current` stays `Idle`.  The same holds
of `handleIdle` on any state it is run on. -/
theorem idle_redispatch (c : AutomationController) (nowMs : Nat) (inp : Inputs)
    (hcur : c.current_ = AutoState.Idle)
    (hlo : -100 < inp.liquidTempC) (hhi : inp.liquidTempC < 125)
    (hsafe : inp.liquidTempC ≤ c.cfg_.safetyTempC) (hmode : inp.mode = Mode.Auto)
    (hnf : specTrigger c nowMs inp.liquidTempC = false) :
    ((inp.liquidTempC > c.cfg_.targetTempC ∨
        sub64 nowMs (if c.stateStartMs_ = 0 then nowMs else c.stateStartMs_) ≥
          c.cfg_.idleMaxMs) →
      c.update nowMs inp =
        handlePumpCycle
          { c with
            current_ := AutoState.PumpCycle
            stateStartMs_ := nowMs
            idleCycleStartMs_ := 0
            idlePumpRunning_ := false } nowMs inp) ∧
    (¬ (inp.liquidTempC > c.cfg_.targetTempC ∨
        sub64 nowMs (if c.stateStartMs_ = 0 then nowMs else c.stateStartMs_) ≥
          c.cfg_.idleMaxMs) →
      (c.update nowMs inp).1.state = "IDLE" ∧
      (c.update nowMs inp).2.current_ = AutoState.Idle) ∧
    (∀ d : AutomationController,
      ((inp.liquidTempC > d.cfg_.targetTempC ∨
          sub64 nowMs d.stateStartMs_ ≥ d.cfg_.idleMaxMs) →
        d.handleIdle nowMs inp =
          handlePumpCycle
            { d with
              current_ := AutoState.PumpCycle
              stateStartMs_ := nowMs
              idleCycleStartMs_ := 0
              idlePumpRunning_ := false } nowMs inp) ∧
      (¬ (inp.liquidTempC > d.cfg_.targetTempC ∨
          sub64 nowMs d.stateStartMs_ ≥ d.cfg_.idleMaxMs) →
        (d.handleIdle nowMs inp).1.state = "IDLE" ∧
        (d.handleIdle nowMs inp).2.current_ = d.current_)) := by
  have hu := update_idle c nowMs inp hcur hlo hhi hsafe hmode hnf
  have hst := withStart_start c nowMs
  have hcfg := withStart_cfg c nowMs
  refine ⟨fun h => ?_, fun h => ?_,
    fun d => ⟨fun h => handleIdle_leave d nowMs inp h, fun h => handleIdle_stay d nowMs inp h⟩⟩
  · rw [hu, ← withStart_then_pump c nowMs]
    apply handleIdle_leave
    rw [hst, hcfg]
    exact h
  · have h2 := handleIdle_stay (c.withStart nowMs) nowMs inp (by rw [hst, hcfg]; exact h)
    rw [withStart_current, hcur] at h2
    rw [hu]
    exact h2

theorem handlePumpCycle_go (c : AutomationController) (nowMs : Nat) (inp : Inputs)
    (h : ¬ (inp.liquidTempC ≤ c.computeCoolingTargetC inp.liquidTempC inp.externalTempC ∨
      sub64 nowMs c.stateStartMs_ ≥ c.cfg_.pumpCycleMaxMs)) :
    c.handlePumpCycle nowMs inp =
      ({ state := "PUMP_CYCLE", fanOn := true,
         pumpPWM := c.computePumpPWM inp.liquidTempC
           (c.computeCoolingTargetC inp.liquidTempC inp.externalTempC) inp.externalTempC,
         note := "Active cooling" }, c) := by
  unfold handlePumpCycle
  dsimp only
  rw [if_neg (by simpa using h)]

/-- Witness of C22: a fresh default controller ticked at 1000 with 8 °C, above
the target of 5 °C, runs the PumpCycle handler in that tick. -/
theorem idle_redispatch_witness :
    freshDefault.update 1000 auto8Inputs =
      handlePumpCycle
        { freshDefault with
          current_ := AutoState.PumpCycle
          stateStartMs_ := 1000
          idleCycleStartMs_ := 0
          idlePumpRunning_ := false } 1000 auto8Inputs := by
  have hnf : specTrigger freshDefault 1000 auto8Inputs.liquidTempC = false := by
    simp [specTrigger, freshDefault, sub64_self]
  have h := idle_redispatch freshDefault 1000 auto8Inputs rfl
    (by norm_num [auto8Inputs]) (by norm_num [auto8Inputs])
    (by norm_num [auto8Inputs, freshDefault]) rfl hnf
  exact h.1 (Or.inl (by norm_num [auto8Inputs, freshDefault]))

/-- C21 (idle timeout forces a pump cycle, as amended): for a controller in
`Idle` and an `Auto` tick that passes the guards without a fan trigger, whose
idle duration `now - s` (`s` the stored `stateStartMs`, or `now` when that is
0) is at least `idleMaxMs`: if `pumpCycleMaxMs > 0` and `liquidTempC` is above
the cooling target, the tick reports `PUMP_CYCLE` with the fan on and
`pumpPWM` in `[50, 200]`, and `current = PumpCycle` after the tick. -/
theorem idle_timeout_pump_cycle (c : AutomationController) (nowMs : Nat) (inp : Inputs)
    (hcur : c.current_ = AutoState.Idle)
    (hlo : -100 < inp.liquidTempC) (hhi : inp.liquidTempC < 125)
    (hsafe : inp.liquidTempC ≤ c.cfg_.safetyTempC) (hmode : inp.mode = Mode.Auto)
    (hnf : specTrigger c nowMs inp.liquidTempC = false)
    (hidle : sub64 nowMs (if c.stateStartMs_ = 0 then nowMs else c.stateStartMs_) ≥
      c.cfg_.idleMaxMs)
    (hpos : 0 < c.cfg_.pumpCycleMaxMs)
    (hwarm : inp.liquidTempC > c.computeCoolingTargetC inp.liquidTempC inp.externalTempC) :
    (c.update nowMs inp).1.state = "PUMP_CYCLE" ∧
    (c.update nowMs inp).1.fanOn = true ∧
    50 ≤ (c.update nowMs inp).1.pumpPWM ∧
    (c.update nowMs inp).1.pumpPWM ≤ 200 ∧
    (c.update nowMs inp).2.current_ = AutoState.PumpCycle := by
  have hleave : inp.liquidTempC > (c.withStart nowMs).cfg_.targetTempC ∨
      sub64 nowMs (c.withStart nowMs).stateStartMs_ ≥ (c.withStart nowMs).cfg_.idleMaxMs := by
    rw [withStart_start, withStart_cfg]
    exact Or.inr hidle
  rw [update_idle c nowMs inp hcur hlo hhi hsafe hmode hnf,
    handleIdle_leave _ nowMs inp hleave, withStart_then_pump]
  have hgo : ¬ (inp.liquidTempC ≤ c.computeCoolingTargetC inp.liquidTempC inp.externalTempC ∨
      sub64 nowMs nowMs ≥ c.cfg_.pumpCycleMaxMs) := by
    rw [sub64_self]
    intro h
    rcases h with h | h
    · exact absurd hwarm (not_lt.mpr h)
    · omega
  rw [handlePumpCycle_go _ nowMs inp hgo]
  exact ⟨rfl, rfl, (clampInt_range _).1, (clampInt_range _).2, rfl⟩

/-- Witness of C21: default configuration, `Idle` since 1000, tick at 601000
(600 s idle) with 4.5 °C, between the cooling target 4 °C and the target 5 °C. -/
theorem idle_timeout_pump_cycle_witness :
    (idleRunning1000.update 601000 auto45Inputs).1.state = "PUMP_CYCLE" ∧
    (idleRunning1000.update 601000 auto45Inputs).1.fanOn = true ∧
    50 ≤ (idleRunning1000.update 601000 auto45Inputs).1.pumpPWM ∧
    (idleRunning1000.update 601000 auto45Inputs).1.pumpPWM ≤ 200 ∧
    (idleRunning1000.update 601000 auto45Inputs).2.current_ = AutoState.PumpCycle := by
  apply idle_timeout_pump_cycle
  · rw [idleRunning1000_eq]; rfl
  · norm_num [auto45Inputs]
  · norm_num [auto45Inputs]
  · rw [idleRunning1000_eq]; norm_num [auto45Inputs, idleSince]
  · rfl
  · rw [idleRunning1000_eq]
    simp [specTrigger, idleSince, auto45Inputs]
    norm_num
  · rw [idleRunning1000_eq]
    simp [idleSince, sub64, U64]
  · rw [idleRunning1000_eq]
    simp [idleSince]
  · rw [idleRunning1000_eq]
    norm_num [computeCoolingTargetC, idleSince, auto45Inputs]

theorem idleZeroPumpMax_eq :
    idleZeroPumpMax =
      { cfg_ := zeroPumpMaxCfg, current_ := AutoState.Idle, stateStartMs_ := 1000,
        idleCycleStartMs_ := 1000, idlePumpRunning_ := true } := by
  simp [idleZeroPumpMax, zeroPumpMaxCfg, auto4Inputs, update, isValidTemp,
    shouldStartFanCycle, handleIdle, sub64, U64]
  norm_num

/-- Counterexample to C21 as stated, three `Auto` ticks on an idle controller
with a plausible reading below the safety limit and no fan trigger, none of
which reports `PUMP_CYCLE`.  A fresh default controller (`stateStartMs = 0`)
ticked at 700000 with 4.5 °C has `now - stateStartMs = 700000 ≥ idleMaxMs`, but
the start is replaced by `now` and the tick reports `IDLE`.  With
`pumpCycleMaxMs = 0`, the idle timeout at 601000 with 4.5 °C enters and leaves
the pump cycle at once and reports `COOLDOWN`.  With the default configuration,
the idle timeout at 601000 with 4 °C, the cooling target, does the same. -/
theorem idle_timeout_counterexample :
    (freshDefault.current_ = AutoState.Idle ∧
      sub64 700000 freshDefault.stateStartMs_ ≥ freshDefault.cfg_.idleMaxMs ∧
      (freshDefault.update 700000 auto45Inputs).1.state = "IDLE" ∧
      (freshDefault.update 700000 auto45Inputs).2.current_ = AutoState.Idle) ∧
    (idleZeroPumpMax.current_ = AutoState.Idle ∧
      sub64 601000 idleZeroPumpMax.stateStartMs_ ≥ idleZeroPumpMax.cfg_.idleMaxMs ∧
      (idleZeroPumpMax.update 601000 auto45Inputs).1.state = "COOLDOWN" ∧
      (idleZeroPumpMax.update 601000 auto45Inputs).2.current_ = AutoState.Cooldown) ∧
    (idleRunning1000.current_ = AutoState.Idle ∧
      sub64 601000 idleRunning1000.stateStartMs_ ≥ idleRunning1000.cfg_.idleMaxMs ∧
      (idleRunning1000.update 601000 auto4Inputs).1.state = "COOLDOWN" ∧
      (idleRunning1000.update 601000 auto4Inputs).1.pumpPWM = 0 ∧
      (idleRunning1000.update 601000 auto4Inputs).2.current_ = AutoState.Cooldown) := by
  refine ⟨?_, ?_, ?_⟩
  · simp [freshDefault, auto45Inputs, update, isValidTemp, shouldStartFanCycle, handleIdle,
      sub64, U64]
    norm_num
  · rw [idleZeroPumpMax_eq]
    simp [zeroPumpMaxCfg, auto45Inputs, update, isValidTemp, shouldStartFanCycle, handleIdle,
      handlePumpCycle, computeCoolingTargetC, sub64, U64]
    norm_num
  · rw [idleRunning1000_eq]
    simp [idleSince, auto4Inputs, update, isValidTemp, shouldStartFanCycle, handleIdle,
      handlePumpCycle, computeCoolingTargetC, sub64, U64]
    norm_num

/-! ## The fan latch -/

theorem stuck_step (c : AutomationController) (nowMs : Nat) (inp : Inputs)
    (hf : c.fanActive_ = true) (hc : c.current_ ≠ AutoState.FanCycle) :
    (c.update nowMs inp).2.fanActive_ = true ∧
      (c.update nowMs inp).2.current_ ≠ AutoState.FanCycle ∧
      (c.update nowMs inp).1.state ≠ "FAN_CYCLE" := by
  rcases update_cases c nowMs inp with h | h | ⟨_, h⟩ | ⟨_, h⟩
  · rw [h]
    exact ⟨hf, hc, by simp⟩
  · rw [h]
    exact ⟨hf, hc, by simp⟩
  · rw [h]
    refine ⟨hf, by simp, ?_⟩
    dsimp only
    split <;> simp
  · rw [h]
    have hnf : (c.withStart nowMs).shouldStartFanCycle nowMs inp.liquidTempC = false :=
      shouldStartFanCycle_withStart_false c nowMs _ (Or.inr (Or.inr hf))
    rw [withFanTrigger_of_not _ _ _ hnf]
    have hc1 : (c.withStart nowMs).current_ ≠ AutoState.FanCycle := by
      rw [withStart_current]
      exact hc
    have hd := dispatch_current (c.withStart nowMs) nowMs inp hc1
    refine ⟨?_, hd.1, hd.2⟩
    rcases dispatch_fanActive (c.withStart nowMs) nowMs inp with h3 | ⟨h3, _, _⟩
    · rw [h3, withStart_fanActive, hf]
    · exact absurd h3 hc1

theorem stuck_stateAfter (c : AutomationController) (sched : Nat → Nat × Inputs) (k : Nat)
    (hf : c.fanActive_ = true) (hc : c.current_ ≠ AutoState.FanCycle) :
    (stateAfter c sched k).fanActive_ = true ∧
      (stateAfter c sched k).current_ ≠ AutoState.FanCycle := by
  induction k with
  | zero => exact ⟨hf, hc⟩
  | succ n ih =>
    have h := stuck_step (stateAfter c sched n) (sched n).1 (sched n).2 ih.1 ih.2
    exact ⟨h.1, h.2.1⟩

/-- C26 (stuck fan latch): from a state with `fanActive = true` and
`current ≠ FanCycle`, every tick (any timestamp, mode and temperatures) leads
to a state with `fanActive = true` and `current ≠ FanCycle` again, and does not
report `FAN_CYCLE`; hence along every sequence of ticks from such a state the
controller never enters `FanCycle` and no tick reports `FAN_CYCLE`. -/
theorem stuck_fan_latch (c : AutomationController) (nowMs : Nat) (inp : Inputs)
    (sched : Nat → Nat × Inputs) (k : Nat)
    (hf : c.fanActive_ = true) (hc : c.current_ ≠ AutoState.FanCycle) :
    ((c.update nowMs inp).2.fanActive_ = true ∧
      (c.update nowMs inp).2.current_ ≠ AutoState.FanCycle ∧
      (c.update nowMs inp).1.state ≠ "FAN_CYCLE") ∧
    ((stateAfter c sched k).fanActive_ = true ∧
      (stateAfter c sched k).current_ ≠ AutoState.FanCycle ∧
      (outputAt c sched k).state ≠ "FAN_CYCLE") := by
  have hs := stuck_stateAfter c sched k hf hc
  exact ⟨stuck_step c nowMs inp hf hc, hs.1, hs.2,
    (stuck_step (stateAfter c sched k) (sched k).1 (sched k).2 hs.1 hs.2).2.2⟩

theorem stuckLatch_eq :
    stuckLatch =
      { cfg_ := {}, current_ := AutoState.Idle, stateStartMs_ := 42000, fanActive_ := true } := by
  rw [stuckLatch, fanSince41000_eq]
  simp [manual4Inputs, update, isValidTemp]
  norm_num

/-- Witness of C26: `stuckLatch` is reached by a `Manual` tick during a fan
cycle; 58 s later a reading of 8 °C, which would otherwise fire the fan
trigger, does not bring the controller into `FanCycle`. -/
theorem stuck_fan_latch_witness :
    (stuckLatch.fanActive_ = true ∧ stuckLatch.current_ ≠ AutoState.FanCycle) ∧
    (stuckLatch.update 100000 auto8Inputs).2.current_ ≠ AutoState.FanCycle ∧
    (stuckLatch.update 100000 auto8Inputs).1.state ≠ "FAN_CYCLE" ∧
    (outputAt stuckLatch hotAt100000 7).state ≠ "FAN_CYCLE" := by
  have hf : stuckLatch.fanActive_ = true := by rw [stuckLatch_eq]
  have hc : stuckLatch.current_ ≠ AutoState.FanCycle := by rw [stuckLatch_eq]; simp
  have h := stuck_fan_latch stuckLatch 100000 auto8Inputs hotAt100000 7 hf hc
  exact ⟨⟨hf, hc⟩, h.1.2.1, h.1.2.2, h.2.2.2⟩

theorem latch_step (c : AutomationController) (nowMs : Nat) (inp : Inputs)
    (hinv : c.current_ = AutoState.FanCycle → c.fanActive_ = true) :
    (c.update nowMs inp).2.current_ = AutoState.FanCycle →
      (c.update nowMs inp).2.fanActive_ = true := by
  rcases update_cases c nowMs inp with h | h | ⟨_, h⟩ | ⟨_, h⟩
  · rw [h]; exact hinv
  · rw [h]; exact hinv
  · rw [h]
    intro h2
    simp at h2
  · rw [h]
    intro hpost
    rcases withFanTrigger_cases (c.withStart nowMs) nowMs inp.liquidTempC with
      ⟨_, _, h2⟩ | ⟨_, h2⟩
    · rw [h2] at hpost ⊢
      rcases dispatch_fanActive
        { c.withStart nowMs with
          current_ := AutoState.FanCycle, stateStartMs_ := nowMs, fanActive_ := true }
        nowMs inp with h3 | ⟨_, h3, _⟩
      · rw [h3]
      · rw [h3] at hpost
        simp at hpost
    · rw [h2] at hpost ⊢
      by_cases hc : c.current_ = AutoState.FanCycle
      · rcases dispatch_fanActive (c.withStart nowMs) nowMs inp with h3 | ⟨_, h3, _⟩
        · rw [h3, withStart_fanActive]
          exact hinv hc
        · rw [h3] at hpost
          simp at hpost
      · exact absurd hpost
          (dispatch_current (c.withStart nowMs) nowMs inp
            (by rw [withStart_current]; exact hc)).1

/-- C27 (reachable-state invariant): in every state reached from a freshly
constructed controller by any sequence of ticks (any timestamps, modes and
temperatures), `current = FanCycle` implies `fanActive = true`. -/
theorem fan_cycle_has_latch (cfg : Config) (sched : Nat → Nat × Inputs) (k : Nat)
    (hfan : (stateAfter { cfg_ := cfg } sched k).current_ = AutoState.FanCycle) :
    (stateAfter { cfg_ := cfg } sched k).fanActive_ = true := by
  have key : ∀ n, (stateAfter { cfg_ := cfg } sched n).current_ = AutoState.FanCycle →
      (stateAfter { cfg_ := cfg } sched n).fanActive_ = true := by
    intro n
    induction n with
    | zero =>
      intro h
      simp [stateAfter] at h
    | succ m ih => exact latch_step (stateAfter { cfg_ := cfg } sched m) _ _ ih
  exact key k hfan

theorem stateAfter_twoTicks : stateAfter freshDefault twoTicks 2 = fanSince41000 := rfl

/-- Witness of C27: two ticks (4 °C at 1000, 8 °C at 41000) bring a fresh
default controller into `FanCycle`, with the latch set. -/
theorem fan_cycle_has_latch_witness :
    (stateAfter freshDefault twoTicks 2).current_ = AutoState.FanCycle ∧
    (stateAfter freshDefault twoTicks 2).fanActive_ = true := by
  have hfan : (stateAfter freshDefault twoTicks 2).current_ = AutoState.FanCycle := by
    rw [stateAfter_twoTicks, fanSince41000_eq]
  exact ⟨hfan, fan_cycle_has_latch {} twoTicks 2 hfan⟩

/-! ## Label against state -/

theorem dispatch_label_state (c : AutomationController) (nowMs : Nat) (inp : Inputs) :
    (c.dispatch nowMs inp).1.state = stateLabel (c.dispatch nowMs inp).2.current_ ∨
    (c.current_ = AutoState.FanCycle ∧
      (c.dispatch nowMs inp).1.state = "FAN_CYCLE" ∧
      (c.dispatch nowMs inp).1.fanOn = true ∧
      (c.dispatch nowMs inp).2.current_ = AutoState.Cooldown) ∨
    (c.current_ = AutoState.Cooldown ∧
      (c.dispatch nowMs inp).1.state = "COOLDOWN" ∧
      (c.dispatch nowMs inp).2.current_ = AutoState.Idle) := by
  unfold dispatch
  split
  · next hc =>
    left
    rcases handleIdle_cases c nowMs inp with h | ⟨start, running, h⟩
    · rw [h]
      rcases handlePumpCycle_cases
        { c with
          current_ := AutoState.PumpCycle
          stateStartMs_ := nowMs
          idleCycleStartMs_ := 0
          idlePumpRunning_ := false } nowMs inp with ⟨note, h2⟩ | h2 <;> rw [h2] <;> rfl
    · rw [h]
      show "IDLE" = stateLabel c.current_
      rw [hc]
      rfl
  · next hc =>
    left
    rcases handlePumpCycle_cases c nowMs inp with ⟨note, h⟩ | h
    · rw [h]
      rfl
    · rw [h]
      show "PUMP_CYCLE" = stateLabel c.current_
      rw [hc]
      rfl
  · next hc =>
    rcases handleFanCycle_cases c nowMs inp with ⟨note, h⟩ | h
    · right
      left
      rw [h]
      exact ⟨hc, rfl, rfl, rfl⟩
    · left
      rw [h]
      show "FAN_CYCLE" = stateLabel c.current_
      rw [hc]
      rfl
  · next hc =>
    rcases handleCooldown_cases c nowMs inp with h | h
    · right
      right
      rw [h]
      exact ⟨hc, rfl, rfl⟩
    · left
      rw [h]
      show "COOLDOWN" = stateLabel c.current_
      rw [hc]
      rfl

/-- C28 (label versus state): for an `Auto` tick that passes the guards, the
reported label names the state of the controller after the tick, except on two
kinds of tick, on which it names the state that ended: the tick on which
`FanCycle` ends (label `FAN_CYCLE` with the fan on, `current` already
`Cooldown`; before the tick `current` was `FanCycle` or the fan trigger held)
and the tick on which `Cooldown` ends (label `COOLDOWN`, `current` already
`Idle`; before the tick `current` was `Cooldown`). -/
theorem label_names_state (c : AutomationController) (nowMs : Nat) (inp : Inputs)
    (hlo : -100 < inp.liquidTempC) (hhi : inp.liquidTempC < 125)
    (hsafe : inp.liquidTempC ≤ c.cfg_.safetyTempC) (hmode : inp.mode = Mode.Auto) :
    ((c.update nowMs inp).1.state = stateLabel (c.update nowMs inp).2.current_ ∨
      ((c.update nowMs inp).1.state = "FAN_CYCLE" ∧
        (c.update nowMs inp).1.fanOn = true ∧
        (c.update nowMs inp).2.current_ = AutoState.Cooldown ∧
        (c.current_ = AutoState.FanCycle ∨ specTrigger c nowMs inp.liquidTempC = true)) ∨
      ((c.update nowMs inp).1.state = "COOLDOWN" ∧
        (c.update nowMs inp).2.current_ = AutoState.Idle ∧
        c.current_ = AutoState.Cooldown)) ∧
    (((c.update nowMs inp).1.state = "FAN_CYCLE" ∧
        (c.update nowMs inp).2.current_ = AutoState.Cooldown) ∨
      ((c.update nowMs inp).1.state = "COOLDOWN" ∧
        (c.update nowMs inp).2.current_ = AutoState.Idle) →
      (c.update nowMs inp).1.state ≠ stateLabel (c.update nowMs inp).2.current_) := by
  constructor
  · rw [update_auto c nowMs inp ((isValidTemp_iff _).mpr ⟨hlo, hhi⟩) (not_lt.mpr hsafe) hmode,
      specTrigger_eq]
    rcases dispatch_label_state ((c.withStart nowMs).withFanTrigger nowMs inp.liquidTempC)
      nowMs inp with h | ⟨hc, h1, h2, h3⟩ | ⟨hc, h1, h2⟩
    · exact Or.inl h
    · refine Or.inr (Or.inl ⟨h1, h2, h3, ?_⟩)
      rcases withFanTrigger_cases (c.withStart nowMs) nowMs inp.liquidTempC with
        ⟨hfire, _, _⟩ | ⟨_, h4⟩
      · exact Or.inr hfire
      · rw [h4, withStart_current] at hc
        exact Or.inl hc
    · refine Or.inr (Or.inr ⟨h1, h2, ?_⟩)
      rcases withFanTrigger_cases (c.withStart nowMs) nowMs inp.liquidTempC with
        ⟨_, _, h4⟩ | ⟨_, h4⟩
      · rw [h4] at hc
        simp at hc
      · rw [h4, withStart_current] at hc
        exact hc
  · intro h
    rcases h with ⟨h1, h2⟩ | ⟨h1, h2⟩ <;> rw [h1, h2] <;> decide

/-- Witness of C28: the tick on which `fanSince41000` ends its fan cycle
reports `FAN_CYCLE` while `current` is `Cooldown`; the tick on which
`cooldownSince1000` ends its cooldown reports `COOLDOWN` while `current` is
`Idle`; the tick that keeps `pumpSince1000` pumping reports the state it is in. -/
theorem label_names_state_witness :
    ((fanSince41000.update 46000 auto4Inputs).1.state = "FAN_CYCLE" ∧
      (fanSince41000.update 46000 auto4Inputs).2.current_ = AutoState.Cooldown) ∧
    ((cooldownSince1000.update 121000 auto4Inputs).1.state = "COOLDOWN" ∧
      (cooldownSince1000.update 121000 auto4Inputs).2.current_ = AutoState.Idle) ∧
    (pumpSince1000.update 6000 auto8Inputs).1.state =
      stateLabel (pumpSince1000.update 6000 auto8Inputs).2.current_ := by
  have hp : pumpSince1000.update 6000 auto8Inputs =
      ({ state := "PUMP_CYCLE", fanOn := true, pumpPWM := 157, note := "Active cooling" },
       pumpSince1000) := by
    rw [pumpSince1000_eq]
    simp [auto8Inputs, update, isValidTemp, shouldStartFanCycle, handlePumpCycle,
      computeCoolingTargetC, computePumpPWM, castInt, addInt, INT_MIN, INT_MAX, clampInt,
      sub64, U64]
    norm_num
  have h := label_names_state pumpSince1000 6000 auto8Inputs (by norm_num [auto8Inputs])
    (by norm_num [auto8Inputs]) (by rw [pumpSince1000_eq]; norm_num [auto8Inputs]) rfl
  refine ⟨?_, ?_, ?_⟩
  · rw [fanSince41000_exit]
    exact ⟨rfl, rfl⟩
  · simp [cooldownSince1000, auto4Inputs, update, isValidTemp, shouldStartFanCycle,
      handleCooldown, sub64, U64]
    norm_num
  · rcases h.1 with h1 | ⟨h1, _⟩ | ⟨h1, _⟩
    · exact h1
    · rw [hp] at h1
      simp at h1
    · rw [hp] at h1
      simp at h1

/-! ## Monotonicity of the pump duty -/

end demo

namespace preferences

theorem applySafetyTemp_accepts_iff (safetyTemp v : ℚ) :
    (applySafetyTemp safetyTemp v).2 = true ↔ 8 ≤ v ∧ v ≤ 40 := by
  unfold applySafetyTemp
  split
  · next h => simpa using h
  · next h => simpa using h

/-- C19 (safety-temperature command range), evaluated where it fails: with the
safety limit at 10, the reply `25` to the `/safetytemp` prompt is outside the
announced range 8.0 to 20.0, yet the command stores 25 in `state.safetyTemp`
and saves the settings; the same happens at the upper end 40 of the range that
the code tests. -/
theorem safetytemp_accepts_outside_announced_range :
    ¬ announcedRange 25 ∧
    applySafetyTemp 10 25 = (25, true) ∧
    safetyTempCommand (fun _ => 25) 10 "25" = (25, true) ∧
    applySafetyTemp 10 40 = (40, true) := by
  refine ⟨?_, ?_, ?_, ?_⟩
  · unfold announcedRange
    norm_num
  · norm_num [applySafetyTemp]
  · simp [safetyTempCommand, applySafetyTemp]
    norm_num
  · norm_num [applySafetyTemp]

theorem scanWriteIndices_valid (networkCount : Int) (h : networkCount ≤ 15) (i : Nat)
    (hi : i ∈ scanWriteIndices networkCount) : i < availableNetworksSize := by
  unfold scanWriteIndices at hi
  unfold availableNetworksSize
  rw [List.mem_range] at hi
  omega

/-- C30 (WiFi scan list bounds), evaluated where it fails: when the scan
returns 16 networks the loop writes at the indices 0 to 15, and 15 is not an
index of the 15-element array `availableNetworks`, so the store leaves the
array; with 20 or more networks the indices 15 to 19 are all written. -/
theorem scan_writes_past_availableNetworks :
    scanWriteIndices 16 = [0, 1, 2, 3, 4, 5, 6, 7, 8, 9, 10, 11, 12, 13, 14, 15] ∧
    15 ∈ scanWriteIndices 16 ∧
    ¬ 15 < availableNetworksSize ∧
    19 ∈ scanWriteIndices 25 ∧
    storeScan (fun _ => "net") 16 (List.replicate availableNetworksSize "") = none ∧
    storeScan (fun _ => "net") 15 (List.replicate availableNetworksSize "") =
      some (List.replicate 15 "net") := by
  refine ⟨by decide, by decide, by decide, by decide, by decide, by decide⟩

end preferences
